import Mathlib

/-!
Okular: signature information, text document generator, document engine, form
widgets and find bar

A shallow embedding of

* `core/signatureinfo.h`, `core/signatureinfo.cpp` (`Okular::SignatureInfo`),
* `generators/poppler/pdfsignatureinfo.cpp` (`PopplerSignatureInfo`),
* `core/textdocumentgenerator.cpp` (`Okular::TextDocumentGenerator`),
* `core/document.h` (`Okular::Document`; the bodies of its member functions are in
  core/document.cpp, which is not among the sources, and are modelled from the spec),
* `ui/formwidgets.cpp` (`FormWidgetsController` and the form widget classes),
* `ui/findbar.cpp` (`FindBar`) with the search ids of `core/document.h`,

followed by theorems about these definitions.

Conventions of the embedding.

* Qt value types are plain data: `QString` is `String`, a `QByteArray` is a list of
  bytes, a `QList`/`QVector` is a `List`, a `qreal`/`double` is a rational number
  (the embedded code converts integers to `double`, which is exact, and does no other
  floating point arithmetic: the two quotients in `generatePixmap` are kept as pairs).
* A pointer that may be null is an `Option`.
* A C++ run with undefined behaviour (an index out of range, `pop` on an empty
  stack, a dangling pointer) is the result `none`.
* A product of two `int`s in the generator is reduced to 32 bits (`toInt32`).
* Enumerators and helpers of libraries outside the repository are parameters; the
  Qt classes that the form widgets are built on (`QAbstractButton`, `QButtonGroup`,
  `QRect`) behave as Qt defines them.
-/

set_option autoImplicit false

namespace Okular

/-! ## Qt value types -/

/-- Embeds `QString`. -/
abbrev QString := String

/-- Embeds `QByteArray`. -/
abbrev QByteArray := List (Fin 256)

/-- The value that an `int` expression leaves when its exact result is `x`: the result
reduced to 32 bits in two's complement, which is `x` itself when `x` fits an `int`.
(Signed overflow is undefined in C++; the compiled code wraps.) -/
def toInt32 (x : Int) : Int := (x + 2 ^ 31) % 2 ^ 32 - 2 ^ 31

/-- Embeds `QDateTime`: `none` is the null date-time `QDateTime()`, `some t` the date-time
`t` seconds after the epoch. -/
abbrev QDateTime := Option Nat

/-- Embeds `QDateTime::fromTime_t( uint seconds )`; the argument is converted to `uint`. -/
def QDateTime.fromTime_t (seconds : Int) : QDateTime :=
  some (seconds % (2 ^ 32 : Int)).toNat

/-! ## core/signatureinfo.h -/

/-- Embeds `Okular::SignatureInfo::SignatureStatus`, enumerators in declaration order. -/
inductive SignatureStatus where
  | SignatureStatusUnknown
  | SignatureValid
  | SignatureInvalid
  | SignatureDigestMismatch
  | SignatureDecodingError
  | SignatureGenericError
  | SignatureNotFound
  | SignatureNotVerified
  deriving DecidableEq, Repr

/-- Embeds `Okular::SignatureInfo::CertificateStatus`, enumerators in declaration order. -/
inductive CertificateStatus where
  | CertificateStatusUnknown
  | CertificateTrusted
  | CertificateUntrustedIssuer
  | CertificateUnknownIssuer
  | CertificateRevoked
  | CertificateExpired
  | CertificateGenericError
  | CertificateNotVerified
  deriving DecidableEq, Repr

/-- Embeds `Okular::SignatureInfo::HashAlgorithm`, enumerators in declaration order. -/
inductive HashAlgorithm where
  | HashAlgorithmUnknown
  | HashAlgorithmMd2
  | HashAlgorithmMd5
  | HashAlgorithmSha1
  | HashAlgorithmSha256
  | HashAlgorithmSha384
  | HashAlgorithmSha512
  | HashAlgorithmSha224
  deriving DecidableEq, Repr

/-- An object of class `Okular::SignatureInfo` seen through its nine virtual `const`
getters: each field is what the corresponding virtual call returns on the object. -/
structure SignatureInfo where
  signatureStatus : SignatureStatus
  certificateStatus : CertificateStatus
  subjectCN : QString
  subjectDN : QString
  hashAlgorithm : HashAlgorithm
  signingTime : QDateTime
  signature : QByteArray
  signedRangeBounds : List Int
  signsTotalDocument : Bool
  deriving DecidableEq, Repr

/-! ## core/signatureinfo.cpp: the base class implementations -/

namespace SignatureInfo

/-- Embeds `SignatureInfo::signatureStatus()` of the base class. -/
def base_signatureStatus : SignatureStatus := SignatureStatus.SignatureStatusUnknown

/-- Embeds `SignatureInfo::certificateStatus()` of the base class. -/
def base_certificateStatus : CertificateStatus := CertificateStatus.CertificateStatusUnknown

/-- Embeds `SignatureInfo::subjectCN()` of the base class: `QString()`. -/
def base_subjectCN : QString := ""

/-- Embeds `SignatureInfo::subjectDN()` of the base class: `QString()`. -/
def base_subjectDN : QString := ""

/-- Embeds `SignatureInfo::hashAlgorithm()` of the base class. -/
def base_hashAlgorithm : HashAlgorithm := HashAlgorithm.HashAlgorithmUnknown

/-- Embeds `SignatureInfo::signingTime()` of the base class: `QDateTime()`. -/
def base_signingTime : QDateTime := none

/-- Embeds `SignatureInfo::signature()` of the base class: `QByteArray()`. -/
def base_signature : QByteArray := []

/-- Embeds `SignatureInfo::signedRangeBounds()` of the base class: `QList<qint64>()`. -/
def base_signedRangeBounds : List Int := []

/-- Embeds `SignatureInfo::signsTotalDocument()` of the base class. -/
def base_signsTotalDocument : Bool := false

/-- An object whose dynamic type overrides none of the virtual getters: every call
dispatches to the implementation in `signatureinfo.cpp`. -/
def overridingNothing : SignatureInfo where
  signatureStatus := base_signatureStatus
  certificateStatus := base_certificateStatus
  subjectCN := base_subjectCN
  subjectDN := base_subjectDN
  hashAlgorithm := base_hashAlgorithm
  signingTime := base_signingTime
  signature := base_signature
  signedRangeBounds := base_signedRangeBounds
  signsTotalDocument := base_signsTotalDocument

end SignatureInfo

end Okular

/-! ## Poppler (outside the repository) -/

namespace Poppler

/-- The integer values of the enumerators of
`Poppler::SignatureValidationInfo::SignatureStatus` that `pdfsignatureinfo.cpp` uses as
`case` labels. `poppler-form.h` is not part of the repository: the values are a
parameter. -/
structure SignatureStatusValues where
  SignatureValid : Int
  SignatureInvalid : Int
  SignatureDigestMismatch : Int
  SignatureDecodingError : Int
  SignatureGenericError : Int
  SignatureNotFound : Int
  SignatureNotVerified : Int
  deriving DecidableEq, Repr

/-- The seven case labels, in the order of the `switch`. -/
def SignatureStatusValues.labels (P : SignatureStatusValues) : List Int :=
  [P.SignatureValid, P.SignatureInvalid, P.SignatureDigestMismatch, P.SignatureDecodingError,
   P.SignatureGenericError, P.SignatureNotFound, P.SignatureNotVerified]

/-- The integer values of the enumerators of
`Poppler::SignatureValidationInfo::CertificateStatus` used as `case` labels. -/
structure CertificateStatusValues where
  CertificateTrusted : Int
  CertificateUntrustedIssuer : Int
  CertificateUnknownIssuer : Int
  CertificateRevoked : Int
  CertificateExpired : Int
  CertificateGenericError : Int
  CertificateNotVerified : Int
  deriving DecidableEq, Repr

/-- The seven case labels, in the order of the `switch`. -/
def CertificateStatusValues.labels (P : CertificateStatusValues) : List Int :=
  [P.CertificateTrusted, P.CertificateUntrustedIssuer, P.CertificateUnknownIssuer,
   P.CertificateRevoked, P.CertificateExpired, P.CertificateGenericError,
   P.CertificateNotVerified]

/-- The integer values of the enumerators of
`Poppler::SignatureValidationInfo::HashAlgorithm` used as `case` labels. -/
structure HashAlgorithmValues where
  HashAlgorithmMd2 : Int
  HashAlgorithmMd5 : Int
  HashAlgorithmSha1 : Int
  HashAlgorithmSha256 : Int
  HashAlgorithmSha384 : Int
  HashAlgorithmSha512 : Int
  HashAlgorithmSha224 : Int
  deriving DecidableEq, Repr

/-- The seven case labels, in the order of the `switch`. -/
def HashAlgorithmValues.labels (P : HashAlgorithmValues) : List Int :=
  [P.HashAlgorithmMd2, P.HashAlgorithmMd5, P.HashAlgorithmSha1, P.HashAlgorithmSha256,
   P.HashAlgorithmSha384, P.HashAlgorithmSha512, P.HashAlgorithmSha224]

/-- The enumerator values that the three `switch` statements of `pdfsignatureinfo.cpp`
are compiled against. A C++ `switch` with two equal case labels does not compile, so
`wellFormed` (pairwise distinct labels) holds of every build. -/
structure Enumerators where
  signature : SignatureStatusValues
  certificate : CertificateStatusValues
  hash : HashAlgorithmValues
  deriving DecidableEq, Repr

/-- Pairwise distinct case labels in each of the three `switch` statements. -/
def Enumerators.wellFormed (P : Enumerators) : Prop :=
  P.signature.labels.Nodup ∧ P.certificate.labels.Nodup ∧ P.hash.labels.Nodup

instance (P : Enumerators) : Decidable P.wellFormed := by
  unfold Enumerators.wellFormed; infer_instance

/-- The enumerator values of poppler-qt5 (`poppler-form.h`): each enumeration counts
from zero in declaration order; `HashAlgorithm` starts with `HashAlgorithmUnknown`. -/
def qt5 : Enumerators where
  signature := ⟨0, 1, 2, 3, 4, 5, 6⟩
  certificate := ⟨0, 1, 2, 3, 4, 5, 6⟩
  hash := ⟨1, 2, 3, 4, 5, 6, 7⟩

/-- What `pdfsignatureinfo.cpp` reads from a `Poppler::SignatureValidationInfo`: the
results of its getters, enumerations as their integer values. -/
structure SignatureValidationInfo where
  signatureStatus : Int
  certificateStatus : Int
  signerName : Okular.QString
  signerSubjectDN : Okular.QString
  hashAlgorithm : Int
  signingTime : Int
  signature : Okular.QByteArray
  signedRangeBounds : List Int
  signsTotalDocument : Bool
  deriving DecidableEq, Repr

end Poppler

/-! ## generators/poppler/pdfsignatureinfo.cpp -/

/-- Embeds `class PopplerSignatureInfoPrivate`. -/
structure PopplerSignatureInfoPrivate where
  rangeBounds : List Int
  signingTime : Okular.QDateTime
  signature : Okular.QByteArray
  subjectCN : Okular.QString
  subjectDN : Okular.QString
  signatureStatus : Int
  certficateStatus : Int
  hashAlgorithm : Int
  signsTotalDoc : Bool
  deriving DecidableEq, Repr

namespace PopplerSignatureInfo

open Okular

/-- Embeds `PopplerSignatureInfo::PopplerSignatureInfo( const Poppler::SignatureValidationInfo &info )`:
the private data after the constructor. -/
def ctor (info : Poppler.SignatureValidationInfo) : PopplerSignatureInfoPrivate where
  signatureStatus := info.signatureStatus
  certficateStatus := info.certificateStatus
  subjectCN := info.signerName
  subjectDN := info.signerSubjectDN
  hashAlgorithm := info.hashAlgorithm
  signingTime := QDateTime.fromTime_t info.signingTime
  signature := info.signature
  rangeBounds := info.signedRangeBounds
  signsTotalDoc := info.signsTotalDocument

/-- Embeds `PopplerSignatureInfo::signatureStatus()`: the `switch` over `d->signatureStatus`. -/
def signatureStatus (P : Poppler.Enumerators) (d : PopplerSignatureInfoPrivate) : SignatureStatus :=
  if d.signatureStatus = P.signature.SignatureValid then SignatureStatus.SignatureValid
  else if d.signatureStatus = P.signature.SignatureInvalid then SignatureStatus.SignatureInvalid
  else if d.signatureStatus = P.signature.SignatureDigestMismatch then
    SignatureStatus.SignatureDigestMismatch
  else if d.signatureStatus = P.signature.SignatureDecodingError then
    SignatureStatus.SignatureDecodingError
  else if d.signatureStatus = P.signature.SignatureGenericError then
    SignatureStatus.SignatureGenericError
  else if d.signatureStatus = P.signature.SignatureNotFound then SignatureStatus.SignatureNotFound
  else if d.signatureStatus = P.signature.SignatureNotVerified then
    SignatureStatus.SignatureNotVerified
  else SignatureStatus.SignatureStatusUnknown

/-- Embeds `PopplerSignatureInfo::certificateStatus()`: the `switch` over `d->certficateStatus`. -/
def certificateStatus (P : Poppler.Enumerators) (d : PopplerSignatureInfoPrivate) :
    CertificateStatus :=
  if d.certficateStatus = P.certificate.CertificateTrusted then
    CertificateStatus.CertificateTrusted
  else if d.certficateStatus = P.certificate.CertificateUntrustedIssuer then
    CertificateStatus.CertificateUntrustedIssuer
  else if d.certficateStatus = P.certificate.CertificateUnknownIssuer then
    CertificateStatus.CertificateUnknownIssuer
  else if d.certficateStatus = P.certificate.CertificateRevoked then
    CertificateStatus.CertificateRevoked
  else if d.certficateStatus = P.certificate.CertificateExpired then
    CertificateStatus.CertificateExpired
  else if d.certficateStatus = P.certificate.CertificateGenericError then
    CertificateStatus.CertificateGenericError
  else if d.certficateStatus = P.certificate.CertificateNotVerified then
    CertificateStatus.CertificateNotVerified
  else CertificateStatus.CertificateStatusUnknown

/-- Embeds `PopplerSignatureInfo::hashAlgorithm()`: the `switch` over `d->hashAlgorithm`. -/
def hashAlgorithm (P : Poppler.Enumerators) (d : PopplerSignatureInfoPrivate) : HashAlgorithm :=
  if d.hashAlgorithm = P.hash.HashAlgorithmMd2 then HashAlgorithm.HashAlgorithmMd2
  else if d.hashAlgorithm = P.hash.HashAlgorithmMd5 then HashAlgorithm.HashAlgorithmMd5
  else if d.hashAlgorithm = P.hash.HashAlgorithmSha1 then HashAlgorithm.HashAlgorithmSha1
  else if d.hashAlgorithm = P.hash.HashAlgorithmSha256 then HashAlgorithm.HashAlgorithmSha256
  else if d.hashAlgorithm = P.hash.HashAlgorithmSha384 then HashAlgorithm.HashAlgorithmSha384
  else if d.hashAlgorithm = P.hash.HashAlgorithmSha512 then HashAlgorithm.HashAlgorithmSha512
  else if d.hashAlgorithm = P.hash.HashAlgorithmSha224 then HashAlgorithm.HashAlgorithmSha224
  else HashAlgorithm.HashAlgorithmUnknown

/-- Embeds `PopplerSignatureInfo::subjectCN()`. -/
def subjectCN (d : PopplerSignatureInfoPrivate) : QString := d.subjectCN

/-- Embeds `PopplerSignatureInfo::subjectDN()`. -/
def subjectDN (d : PopplerSignatureInfoPrivate) : QString := d.subjectDN

/-- Embeds `PopplerSignatureInfo::signingTime()`. -/
def signingTime (d : PopplerSignatureInfoPrivate) : QDateTime := d.signingTime

/-- Embeds `PopplerSignatureInfo::signature()`. -/
def signature (d : PopplerSignatureInfoPrivate) : QByteArray := d.signature

/-- Embeds `PopplerSignatureInfo::signedRangeBounds()`. -/
def signedRangeBounds (d : PopplerSignatureInfoPrivate) : List Int := d.rangeBounds

/-- Embeds `PopplerSignatureInfo::signsTotalDocument()`. -/
def signsTotalDocument (d : PopplerSignatureInfoPrivate) : Bool := d.signsTotalDoc

/-- A `PopplerSignatureInfo` object seen as an `Okular::SignatureInfo`: it overrides
all nine virtual getters. -/
def toSignatureInfo (P : Poppler.Enumerators) (d : PopplerSignatureInfoPrivate) :
    Okular.SignatureInfo where
  signatureStatus := signatureStatus P d
  certificateStatus := certificateStatus P d
  subjectCN := subjectCN d
  subjectDN := subjectDN d
  hashAlgorithm := hashAlgorithm P d
  signingTime := signingTime d
  signature := signature d
  signedRangeBounds := signedRangeBounds d
  signsTotalDocument := signsTotalDocument d

end PopplerSignatureInfo

/-! ## Types used by core/textdocumentgenerator.cpp -/

namespace Okular

/-- Embeds `QSize`. -/
structure QSize where
  width : Int
  height : Int
  deriving DecidableEq, Repr

/-- Embeds `QRect`: top-left corner and size, integer coordinates. -/
structure QRect where
  x : Int
  y : Int
  width : Int
  height : Int
  deriving DecidableEq, Repr

/-- Embeds `QRect::left()`. -/
def QRect.left (r : QRect) : Int := r.x

/-- Embeds `QRect::top()`. -/
def QRect.top (r : QRect) : Int := r.y

/-- Embeds `QRect::right()`, which Qt defines as `x + width - 1`. -/
def QRect.right (r : QRect) : Int := r.x + r.width - 1

/-- Embeds `QRect::bottom()`, which Qt defines as `y + height - 1`. -/
def QRect.bottom (r : QRect) : Int := r.y + r.height - 1

/-- What the generator reads from a `QRectF`: the results of `left()`, `top()`,
`right()` and `bottom()`. -/
structure QRectF where
  left : ℚ
  top : ℚ
  right : ℚ
  bottom : ℚ
  deriving DecidableEq, Repr

/-- Embeds `QTextBlock`: a handle on a block of a text document. -/
abbrev QTextBlock := Nat

/-- What the generator reads from a `QTextDocument`: `pageCount()` (a number of
pages, so not negative), `pageSize().toSize()` and `toPlainText()`. Its layout is
reached only through the helpers of `Utils`, see `Env`. -/
structure QTextDocument where
  pageCount : Nat
  pageSize : QSize
  toPlainText : QString
  deriving DecidableEq, Repr

/-- Embeds `Okular::Rotation`. -/
inductive Rotation where
  | Rotation0
  | Rotation90
  | Rotation180
  | Rotation270
  deriving DecidableEq, Repr

/-- Embeds `Okular::NormalizedRect( left, top, right, bottom )`. -/
structure NormalizedRect where
  left : ℚ
  top : ℚ
  right : ℚ
  bottom : ℚ
  deriving DecidableEq, Repr

/-- Embeds `Okular::Action`: an action object, known by its address. -/
structure Action where
  address : Nat
  deriving DecidableEq, Repr

/-- Embeds `Okular::Annotation`: an annotation object with the two attributes the generator
writes, `flags` and the bounding rectangle (`none` until it is set). -/
structure Annotation where
  address : Nat
  flags : Nat
  boundingRectangle : Option NormalizedRect
  deriving DecidableEq, Repr

/-- Embeds `Annotation::setFlags`. -/
def Annotation.setFlags (a : Annotation) (flags : Nat) : Annotation :=
  { a with flags := flags }

/-- Embeds `Annotation::setBoundingRectangle`. -/
def Annotation.setBoundingRectangle (a : Annotation) (r : NormalizedRect) : Annotation :=
  { a with boundingRectangle := some r }

/-- Embeds `Okular::ObjectRect::ObjectType`. -/
inductive ObjectRect.ObjectType where
  | Action
  | Image
  | OAnnotation
  | SourceRef
  deriving DecidableEq, Repr

/-- Embeds `Okular::ObjectRect( left, top, right, bottom, ellipse, type, object )`. -/
structure ObjectRect where
  left : ℚ
  top : ℚ
  right : ℚ
  bottom : ℚ
  ellipse : Bool
  type : ObjectRect.ObjectType
  object : Action
  deriving DecidableEq, Repr

/-- One call made on the `QPainter` that paints a pixmap, arguments as passed.
The two scale factors are kept as the quotients `width / size.width()` and
`height / size.height()` of the source, numerator and denominator. -/
inductive PaintCommand where
  | fillWhite
  | scale (width sizeWidth height sizeHeight : Int)
  | translate (x y : Int)
  | drawContents (document : QTextDocument) (rect : QRect)
  deriving DecidableEq, Repr

/-- Embeds `QPixmap`: the results of `width()` and `height()`, and what has been painted
on the pixmap. -/
structure QPixmap where
  width : Int
  height : Int
  painted : List PaintCommand
  deriving DecidableEq, Repr

/-- Embeds the constructor `QPixmap( width, height )` as Qt defines it: unless both
arguments are positive the pixmap is a null pixmap, whose `width()` and `height()` are 0.
Nothing is painted on the new pixmap; the storage for its pixels is taken to be
available. -/
def QPixmap.ctor (width height : Int) : QPixmap :=
  if 0 < width ∧ 0 < height then ⟨width, height, []⟩ else ⟨0, 0, []⟩

/-- Embeds `QPixmap::isNull()`. -/
def QPixmap.isNull (pixmap : QPixmap) : Bool :=
  decide (pixmap.width ≤ 0) || decide (pixmap.height ≤ 0)

/-- One call that paints on the pixmap, `fill` or a call on a `QPainter` begun on it.
On a null pixmap `fill` returns at once and `QPainter::begin` fails, which leaves the
painter inactive: nothing is painted. -/
def QPixmap.paint (pixmap : QPixmap) (command : PaintCommand) : QPixmap :=
  if pixmap.isNull then pixmap else { pixmap with painted := pixmap.painted ++ [command] }

/-- Modelled from the spec: `Okular::Page` (core/page.h, core/page.cpp are not among
the sources). A page is identified by a stable zero-based index and has a pixel
width/height at a reference rotation, a rotation, a list of annotations, a list of
interactive object rects and a per-observer pixmap cache keyed by observer id. -/
structure Page where
  number : Nat
  width : ℚ
  height : ℚ
  rotation : Rotation
  objectRects : List ObjectRect
  annotations : List Annotation
  pixmaps : List (Int × QPixmap)
  deriving DecidableEq, Repr

/-- Modelled from the spec: the constructor `Page( number, width, height, rotation )`;
the new page owns no object rect, annotation or pixmap. -/
def Page.ctor (number : Nat) (width height : ℚ) (rotation : Rotation) : Page where
  number := number
  width := width
  height := height
  rotation := rotation
  objectRects := []
  annotations := []
  pixmaps := []

/-- Modelled from the spec: `Page::setObjectRects`, which replaces the page's list of
object rects. -/
def Page.setObjectRects (p : Page) (rects : List ObjectRect) : Page :=
  { p with objectRects := rects }

/-- Modelled from the spec: `Page::addAnnotation`, which adds to the page's list of
annotations. -/
def Page.addAnnotation (p : Page) (a : Annotation) : Page :=
  { p with annotations := p.annotations ++ [a] }

/-- Modelled from the spec: `Page::setPixmap( id, pixmap )`, which stores the pixmap
in the per-observer cache under the observer id, replacing the pixmap cached under
that id and no other. -/
def Page.setPixmap (p : Page) (id : Int) (pixmap : QPixmap) : Page :=
  { p with pixmaps := (id, pixmap) :: p.pixmaps.filter (fun e => e.1 != id) }

/-- The pixmap cached on the page for the observer `id`, if any. -/
def Page.pixmap (p : Page) (id : Int) : Option QPixmap :=
  (p.pixmaps.find? (fun e => e.1 == id)).map Prod.snd

/-- Embeds `DocumentViewport::Position` (core/document.h). -/
inductive DocumentViewport.Position where
  | Center
  | TopLeft
  deriving DecidableEq, Repr

/-- The member `rePos` of `DocumentViewport`. -/
structure DocumentViewport.RePos where
  enabled : Bool
  normalizedX : ℚ
  normalizedY : ℚ
  pos : DocumentViewport.Position
  deriving DecidableEq, Repr

/-- The member `autoFit` of `DocumentViewport`. -/
structure DocumentViewport.AutoFit where
  enabled : Bool
  width : Bool
  height : Bool
  deriving DecidableEq, Repr

/-- Embeds `class DocumentViewport` (core/document.h). -/
structure DocumentViewport where
  pageNumber : Int
  rePos : DocumentViewport.RePos
  autoFit : DocumentViewport.AutoFit
  deriving DecidableEq, Repr

/-- Embeds `DocumentInfo::Key` (core/document.h). -/
inductive DocumentInfo.Key where
  | Title
  | Subject
  | Description
  | Author
  | Creator
  | Producer
  | Copyright
  | Pages
  | CreationDate
  | ModificationDate
  | MimeType
  | Category
  | Keywords
  deriving DecidableEq, Repr

/-- One element of a `DocumentInfo`: the tag is the key, with the attributes `value`
and `title`. -/
structure DocumentInfo.Entry where
  key : QString
  value : QString
  title : QString
  deriving DecidableEq, Repr

/-- Modelled from the spec: `class DocumentInfo` (declared in core/document.h; its
member functions are in core/document.cpp, not among the sources). The metadata are
the elements of the DOM tree in document order, one per key. -/
structure DocumentInfo where
  entries : List DocumentInfo.Entry
  deriving DecidableEq, Repr

/-- Modelled from the spec: `DocumentInfo::DocumentInfo()`, a document info without
metadata. -/
def DocumentInfo.ctor : DocumentInfo := ⟨[]⟩

/-- Modelled from the spec: `DocumentInfo::set( key, value, title )`, "sets a value
for a special key": the element of that key gets the value and title, and is added
when the key is new. -/
def DocumentInfo.set (info : DocumentInfo) (key value title : QString) : DocumentInfo :=
  if info.entries.any (fun e => e.key == key) then
    ⟨info.entries.map (fun e => if e.key == key then ⟨key, value, title⟩ else e)⟩
  else
    ⟨info.entries ++ [⟨key, value, title⟩]⟩

/-- Modelled from the spec: `DocumentInfo::get( key )`, "returns the value for a given
key or an empty string when the key doesn't exist". -/
def DocumentInfo.get (info : DocumentInfo) (key : QString) : QString :=
  match info.entries.find? (fun e => e.key == key) with
  | some e => e.value
  | none => ""

/-- A `QDomNode` handle into a `QDomDocument`: the null node, the document node, or
the element created as number `index`. -/
inductive QDomNode where
  | null
  | document
  | element (index : Nat)
  deriving DecidableEq, Repr

/-- An element of a `QDomDocument`: tag name, attributes, and its child elements in
document order. -/
structure QDomElementData where
  tagName : QString
  attributes : List (QString × QString)
  children : List Nat
  deriving DecidableEq, Repr

/-- Embeds `QDomDocument`: the elements created by the document, in creation order, and the
children of the document node in document order. An element that is in no list of
children has been created but not inserted. -/
structure QDomDocument where
  elements : List QDomElementData
  children : List Nat
  deriving DecidableEq, Repr

/-- Embeds `QDomDocument::createElement( tagName )`: a new element that is not yet inserted. -/
def QDomDocument.createElement (doc : QDomDocument) (tagName : QString) :
    QDomDocument × QDomNode :=
  ({ doc with elements := doc.elements ++ [⟨tagName, [], []⟩] }, QDomNode.element doc.elements.length)

/-- Replace the element number `i` by its image under `f`. -/
def QDomDocument.modifyElement (doc : QDomDocument) (i : Nat)
    (f : QDomElementData → QDomElementData) : QDomDocument :=
  match doc.elements[i]? with
  | some e => { doc with elements := doc.elements.set i (f e) }
  | none => doc

/-- Embeds `QDomElement::setAttribute( name, value )`; nothing happens on a node that is not
an element. -/
def QDomDocument.setAttribute (doc : QDomDocument) (node : QDomNode) (name value : QString) :
    QDomDocument :=
  match node with
  | QDomNode.element i =>
    doc.modifyElement i (fun e =>
      if e.attributes.any (fun a => a.1 == name) then
        { e with attributes := e.attributes.map (fun a => if a.1 == name then (name, value) else a) }
      else
        { e with attributes := e.attributes ++ [(name, value)] })
  | _ => doc

/-- Embeds `QDomNode::appendChild( newChild )` for a `newChild` that is a created, not yet
inserted element (its only use in the generator): the element becomes the last child
of `parent`. Calling it on a null node does nothing. -/
def QDomDocument.appendChild (doc : QDomDocument) (parent newChild : QDomNode) : QDomDocument :=
  match parent, newChild with
  | QDomNode.document, QDomNode.element c => { doc with children := doc.children ++ [c] }
  | QDomNode.element p, QDomNode.element c =>
    doc.modifyElement p (fun e => { e with children := e.children ++ [c] })
  | _, _ => doc

/-- Embeds `QDomNode::lastChildElement()`: the last child element of the node, the null node
when there is none. -/
def QDomDocument.lastChildElement (doc : QDomDocument) (node : QDomNode) : QDomNode :=
  match node with
  | QDomNode.null => QDomNode.null
  | QDomNode.document =>
    match doc.children.getLast? with
    | some c => QDomNode.element c
    | none => QDomNode.null
  | QDomNode.element i =>
    match doc.elements[i]?.bind (fun e => e.children.getLast?) with
    | some c => QDomNode.element c
    | none => QDomNode.null

/-- Embeds `QDomNode::hasChildNodes()` on the document node. -/
def QDomDocument.hasChildNodes (doc : QDomDocument) : Bool := !doc.children.isEmpty

/-- Embeds `class DocumentSynopsis : public QDomDocument` (core/document.h). -/
abbrev DocumentSynopsis := QDomDocument

/-- Embeds `DocumentSynopsis::DocumentSynopsis()`: an empty DOM tree. -/
def DocumentSynopsis.ctor : DocumentSynopsis := ⟨[], []⟩

end Okular

/-! ## core/textdocumentgenerator.cpp -/

namespace Okular

/-- Embeds `QVector<T>::resize( size )`: the first `size` entries are kept, new entries are
default-constructed. -/
def QVector.resize {α : Type} (v : List α) (size : Nat) (dflt : α) : List α :=
  v.take size ++ List.replicate (size - v.length) dflt

/-- The statement `v[ i ].append( x )` on a `QVector< QLinkedList<T> >`: undefined
when the index `i` is out of range. -/
def QVector.appendAt {α : Type} (v : List (List α)) (i : Int) (x : α) : Option (List (List α)) :=
  if 0 ≤ i ∧ i.toNat < v.length then
    some (v.set i.toNat (v.getD i.toNat [] ++ [x]))
  else
    none

/-- Helpers and constants that the generator uses and that are defined outside the
sources (`Utils` of textdocumentgenerator_p.h, core/document.cpp, core/annotations.h,
`QFile`). They are parameters of the embedding. -/
structure Env where
  /-- Stands for `Utils::calculateBoundingRect( document, startPosition, endPosition, rect, page )`:
  the values it leaves in its two out-parameters `rect` and `page`. -/
  calculateBoundingRect : QTextDocument → Int → Int → QRectF × Int
  /-- Stands for `Utils::calculateViewport( document, block )`. -/
  calculateViewport : QTextDocument → QTextBlock → DocumentViewport
  /-- Stands for `DocumentViewport::toString()`. -/
  viewportToString : DocumentViewport → QString
  /-- The flag `Okular::Annotation::External`. -/
  annotationExternal : Nat
  /-- The tag that `DocumentInfo::set( Key, value )` uses for a predefined key. -/
  keyString : DocumentInfo.Key → QString
  /-- The title that `DocumentInfo::set( Key, value )` uses for a predefined key. -/
  keyTitle : DocumentInfo.Key → QString
  /-- Whether `QFile( fileName ).open( QIODevice::WriteOnly )` succeeds. -/
  fileOpen : QString → Bool

/-- Modelled from the spec: `DocumentInfo::set( Key, value )`, "sets the value for a
predefined key": the key stands for a tag and a title. -/
def DocumentInfo.setKey (env : Env) (info : DocumentInfo) (key : DocumentInfo.Key)
    (value : QString) : DocumentInfo :=
  info.set (env.keyString key) value (env.keyTitle key)

/-- Embeds `TextDocumentGeneratorPrivate::TitlePosition`. -/
structure TitlePosition where
  level : Int
  title : QString
  block : QTextBlock
  deriving DecidableEq, Repr

/-- Embeds `TextDocumentGeneratorPrivate::LinkPosition`. -/
structure LinkPosition where
  link : Action
  startPosition : Int
  endPosition : Int
  deriving DecidableEq, Repr

/-- Embeds `TextDocumentGeneratorPrivate::LinkInfo`. -/
structure LinkInfo where
  link : Action
  boundingRect : QRectF
  page : Int
  deriving DecidableEq, Repr

/-- Embeds `TextDocumentGeneratorPrivate::AnnotationPosition`. -/
structure AnnotationPosition where
  annotation : Annotation
  startPosition : Int
  endPosition : Int
  deriving DecidableEq, Repr

/-- Embeds `TextDocumentGeneratorPrivate::AnnotationInfo`. -/
structure AnnotationInfo where
  annotation : Annotation
  boundingRect : QRectF
  page : Int
  deriving DecidableEq, Repr

/-- The members of `TextDocumentGeneratorPrivate` that textdocumentgenerator.cpp reads
and writes (`mConverter` is a parameter of `loadDocument`). -/
structure TextDocumentGeneratorPrivate where
  mDocument : Option QTextDocument
  mTitlePositions : List TitlePosition
  mLinkPositions : List LinkPosition
  mLinkInfos : List LinkInfo
  mAnnotationPositions : List AnnotationPosition
  mAnnotationInfos : List AnnotationInfo
  mDocumentInfo : DocumentInfo
  mDocumentSynopsis : DocumentSynopsis
  deriving DecidableEq, Repr

/-- A signal that a `TextDocumentConverter` emits while it converts, with its
arguments; a null `Action*` or `Annotation*` is `none`. -/
inductive ConverterSignal where
  | addAction (action : Option Action) (cursorBegin cursorEnd : Int)
  | addAnnotation (pointer : Option Annotation) (cursorBegin cursorEnd : Int)
  | addTitle (level : Int) (title : QString) (block : QTextBlock)
  | addMetaData (key value title : QString)
  | addMetaDataKey (key : DocumentInfo.Key) (value : QString)
  | error (message : QString) (duration : Int)
  | warning (message : QString) (duration : Int)
  | notice (message : QString) (duration : Int)
  deriving DecidableEq, Repr

/-- A `TextDocumentConverter`: `convert( fileName )` is pure virtual, implemented by
each format. A call emits signals and returns a `QTextDocument*`, null on failure. -/
structure TextDocumentConverter where
  convert : QString → List ConverterSignal × Option QTextDocument

/-- Embeds `PixmapRequest`: observer id, page number, pixel width and height, and the
address of the page the request is for (`page()`, null is `none`). -/
structure PixmapRequest where
  id : Int
  pageNumber : Int
  width : Int
  height : Int
  page : Option Nat
  deriving DecidableEq, Repr

/-- An effect of the generator on the file system. -/
inductive FileEffect where
  | opened (fileName : QString) (success : Bool)
  | printed (fileName : QString) (document : QTextDocument)
  | written (fileName : QString) (text : QString)
  deriving DecidableEq, Repr

/-- What the generator acts on outside its private data: the `Page` objects allocated
so far (the address of a page is its index), the requests handed to
`signalPixmapRequestDone` in order, and the effects on files in order. -/
structure World where
  pages : List Page
  pixmapRequestsDone : List PixmapRequest
  fileEffects : List FileEffect
  deriving DecidableEq, Repr

/-- Modelled from the spec: `Generator::signalPixmapRequestDone( request )`
(core/generator.cpp is not among the sources), the completion callback of a pixmap
request. -/
def World.signalPixmapRequestDone (w : World) (request : PixmapRequest) : World :=
  { w with pixmapRequestsDone := w.pixmapRequestsDone ++ [request] }

/-- Embeds `ExportFormat`, for a format that is not null: the description and the
name of the mime type, `mimeType()->name()`. -/
structure ExportFormat where
  description : QString
  mimeTypeName : QString
  deriving DecidableEq, Repr

/-- Embeds `ExportFormat::StandardExportFormat`, the two values the generator uses. -/
inductive ExportFormat.StandardExportFormat where
  | PlainText
  | PDF
  deriving DecidableEq, Repr

/-- Modelled from the spec: `ExportFormat::standardFormat` (core/generator.cpp is not
among the sources): the plain text format has the mime type text/plain, the PDF format
application/pdf. -/
def ExportFormat.standardFormat : ExportFormat.StandardExportFormat → ExportFormat
  | ExportFormat.StandardExportFormat.PlainText => ⟨"Plain Text", "text/plain"⟩
  | ExportFormat.StandardExportFormat.PDF => ⟨"PDF", "application/pdf"⟩

namespace TextDocumentGeneratorPrivate

/-- Embeds `TextDocumentGeneratorPrivate( converter )`: no document, nothing gathered. -/
def ctor : TextDocumentGeneratorPrivate where
  mDocument := none
  mTitlePositions := []
  mLinkPositions := []
  mLinkInfos := []
  mAnnotationPositions := []
  mAnnotationInfos := []
  mDocumentInfo := DocumentInfo.ctor
  mDocumentSynopsis := DocumentSynopsis.ctor

/-- Embeds `TextDocumentGeneratorPrivate::addAction`. -/
def addAction (d : TextDocumentGeneratorPrivate) (action : Option Action)
    (cursorBegin cursorEnd : Int) : TextDocumentGeneratorPrivate :=
  match action with
  | none => d
  | some link => { d with mLinkPositions := d.mLinkPositions ++ [⟨link, cursorBegin, cursorEnd⟩] }

/-- Embeds `TextDocumentGeneratorPrivate::addAnnotation`. -/
def addAnnotation (env : Env) (d : TextDocumentGeneratorPrivate) (pointer : Option Annotation)
    (cursorBegin cursorEnd : Int) : TextDocumentGeneratorPrivate :=
  match pointer with
  | none => d
  | some a =>
    let a := a.setFlags (a.flags ||| env.annotationExternal)
    { d with mAnnotationPositions := d.mAnnotationPositions ++ [⟨a, cursorBegin, cursorEnd⟩] }

/-- Embeds `TextDocumentGeneratorPrivate::addTitle`. -/
def addTitle (d : TextDocumentGeneratorPrivate) (level : Int) (title : QString)
    (block : QTextBlock) : TextDocumentGeneratorPrivate :=
  { d with mTitlePositions := d.mTitlePositions ++ [⟨level, title, block⟩] }

/-- Embeds `TextDocumentGeneratorPrivate::addMetaData( const QString &key, value, title )`. -/
def addMetaData (d : TextDocumentGeneratorPrivate) (key value title : QString) :
    TextDocumentGeneratorPrivate :=
  { d with mDocumentInfo := d.mDocumentInfo.set key value title }

/-- Embeds `TextDocumentGeneratorPrivate::addMetaData( DocumentInfo::Key key, value )`. -/
def addMetaDataKey (env : Env) (d : TextDocumentGeneratorPrivate) (key : DocumentInfo.Key)
    (value : QString) : TextDocumentGeneratorPrivate :=
  { d with mDocumentInfo := d.mDocumentInfo.setKey env key value }

/-- The connections made in the constructor of `TextDocumentGenerator`: a signal of
the converter runs the slot of the same name; `error`, `warning` and `notice` are
relayed as signals of the generator and touch no private data. -/
def receive (env : Env) (d : TextDocumentGeneratorPrivate) :
    ConverterSignal → TextDocumentGeneratorPrivate
  | ConverterSignal.addAction action b e => d.addAction action b e
  | ConverterSignal.addAnnotation pointer b e => d.addAnnotation env pointer b e
  | ConverterSignal.addTitle level title block => d.addTitle level title block
  | ConverterSignal.addMetaData key value title => d.addMetaData key value title
  | ConverterSignal.addMetaDataKey key value => d.addMetaDataKey env key value
  | ConverterSignal.error _ _ => d
  | ConverterSignal.warning _ _ => d
  | ConverterSignal.notice _ _ => d

/-- The body of the loop of `generateLinkInfos` for one link position. -/
def linkInfoStep (env : Env) (doc : QTextDocument) (infos : List LinkInfo)
    (linkPosition : LinkPosition) : List LinkInfo :=
  let out := env.calculateBoundingRect doc linkPosition.startPosition linkPosition.endPosition
  if out.2 ≥ 0 then infos ++ [⟨linkPosition.link, out.1, out.2⟩] else infos

/-- Embeds `TextDocumentGeneratorPrivate::generateLinkInfos`. The loop body dereferences
`mDocument`, so running it with a null document is undefined. -/
def generateLinkInfos (env : Env) (d : TextDocumentGeneratorPrivate) :
    Option TextDocumentGeneratorPrivate :=
  match d.mDocument with
  | some doc =>
    some { d with mLinkInfos := d.mLinkPositions.foldl (linkInfoStep env doc) d.mLinkInfos }
  | none => if d.mLinkPositions.isEmpty then some d else none

/-- The body of the loop of `generateAnnotationInfos` for one annotation position. -/
def annotationInfoStep (env : Env) (doc : QTextDocument) (infos : List AnnotationInfo)
    (annotationPosition : AnnotationPosition) : List AnnotationInfo :=
  let out := env.calculateBoundingRect doc annotationPosition.startPosition
    annotationPosition.endPosition
  if out.2 ≥ 0 then infos ++ [AnnotationInfo.mk annotationPosition.annotation out.1 out.2] else infos

/-- Embeds `TextDocumentGeneratorPrivate::generateAnnotationInfos`. The loop body
dereferences `mDocument`, so running it with a null document is undefined. -/
def generateAnnotationInfos (env : Env) (d : TextDocumentGeneratorPrivate) :
    Option TextDocumentGeneratorPrivate :=
  match d.mDocument with
  | some doc =>
    some { d with
      mAnnotationInfos := d.mAnnotationPositions.foldl (annotationInfoStep env doc)
        d.mAnnotationInfos }
  | none => if d.mAnnotationPositions.isEmpty then some d else none

/-- The local variables of `generateTitleInfos` that its second loop updates, with
the synopsis: `parentNodeStack` has its top first. -/
structure TitleLoop where
  synopsis : DocumentSynopsis
  parentNode : QDomNode
  parentNodeStack : List QDomNode
  level : Int
  deriving DecidableEq, Repr

/-- The inner loop `for ( int i = level; i > newLevel; i-- ) { level--; parentNode =
parentNodeStack.pop(); }` run for `n` iterations on the pair of `parentNode` and
`parentNodeStack`; `QStack::pop` on an empty stack is undefined. -/
def popLevels : Nat → QDomNode × List QDomNode → Option (QDomNode × List QDomNode)
  | 0, s => some s
  | _ + 1, (_, []) => none
  | n + 1, (_, top :: rest) => popLevels n (top, rest)

/-- The body of the second loop of `generateTitleInfos` for one title position. -/
def titleStep (env : Env) (doc : QTextDocument) (st : TitleLoop) (position : TitlePosition) :
    Option TitleLoop :=
  let viewport := env.calculateViewport doc position.block
  let created := st.synopsis.createElement position.title
  let item := created.2
  let synopsis := created.1.setAttribute item "Viewport" (env.viewportToString viewport)
  let newLevel := position.level
  if newLevel = st.level then
    some { st with synopsis := synopsis.appendChild st.parentNode item }
  else if newLevel > st.level then
    let parentNode := synopsis.lastChildElement st.parentNode
    some { synopsis := synopsis.appendChild parentNode item
           parentNode := parentNode
           parentNodeStack := st.parentNode :: st.parentNodeStack
           level := newLevel }
  else
    match popLevels (st.level - newLevel).toNat (st.parentNode, st.parentNodeStack) with
    | none => none
    | some popped =>
      some { synopsis := synopsis.appendChild popped.1 item
             parentNode := popped.1
             parentNodeStack := popped.2
             level := newLevel }

/-- Whether the levels of successive titles nest, seen from the current `level` with
`depth` nodes on `parentNodeStack`: a title above the current level pushes one node,
a title `k` levels below it pops `k` nodes, which must be there. -/
def titleLevelsNest : Int → Nat → List Int → Bool
  | _, _, [] => true
  | level, depth, newLevel :: rest =>
    if newLevel = level then titleLevelsNest level depth rest
    else if newLevel > level then titleLevelsNest newLevel (depth + 1) rest
    else decide ((level - newLevel).toNat ≤ depth) &&
      titleLevelsNest newLevel (depth - (level - newLevel).toNat) rest

/-- Embeds `TextDocumentGeneratorPrivate::generateTitleInfos`. -/
def generateTitleInfos (env : Env) (d : TextDocumentGeneratorPrivate) :
    Option TextDocumentGeneratorPrivate :=
  let level := d.mTitlePositions.foldl (fun level position => min level position.level) 1000
  match d.mDocument with
  | some doc =>
    (d.mTitlePositions.foldlM (titleStep env doc)
      ⟨d.mDocumentSynopsis, QDomNode.document, [], level⟩).map
      (fun st => { d with mDocumentSynopsis := st.synopsis })
  | none => if d.mTitlePositions.isEmpty then some d else none

end TextDocumentGeneratorPrivate

namespace TextDocumentGenerator

open TextDocumentGeneratorPrivate

/-- The result of `loadDocument`: the returned `bool`, the private data, the world
and the caller's `pagesVector` (a `QVector<Okular::Page*>` of addresses, null is
`none`) after the call. -/
structure Loaded where
  result : Bool
  d : TextDocumentGeneratorPrivate
  world : World
  pagesVector : List (Option Nat)
  deriving DecidableEq, Repr

/-- The bounding rectangle that `loadDocument` gives to the annotation of `info`. -/
def annotationRectangle (size : QSize) (page : Int) : NormalizedRect :=
  let rect : QRect := ⟨0, toInt32 (page * size.height), size.width, size.height⟩
  ⟨rect.left, rect.top, rect.right, rect.bottom⟩

/-- The body of the last loop of `loadDocument` for the page number `i`: the page is
created on the heap, stored in `pagesVector[ i ]`, and given its object rects and
annotations. -/
def loadPage (size : QSize) (objects : List (List ObjectRect)) (annots : List (List Annotation))
    (acc : List Page × List (Option Nat)) (i : Nat) : List Page × List (Option Nat) :=
  let page := Page.ctor i size.width size.height Rotation.Rotation0
  let page := if !(objects.getD i []).isEmpty then page.setObjectRects (objects.getD i []) else page
  let page := (annots.getD i []).foldl Page.addAnnotation page
  (acc.1 ++ [page], acc.2.set i (some acc.1.length))

/-- Embeds `TextDocumentGenerator::loadDocument( fileName, pagesVector )`. The converter runs
first; the slots connected to its signals have updated the private data when
`convert` returns. Objects released with `delete` are not referenced afterwards. -/
def loadDocument (env : Env) (mConverter : TextDocumentConverter) (fileName : QString)
    (d : TextDocumentGeneratorPrivate) (w : World) (pagesVector : List (Option Nat)) :
    Option Loaded :=
  let converted := mConverter.convert fileName
  let d := converted.1.foldl (receive env) d
  let d := { d with mDocument := converted.2 }
  match converted.2 with
  | none =>
    some ⟨false, { d with mTitlePositions := [], mLinkPositions := [], mAnnotationPositions := [] },
      w, pagesVector⟩
  | some doc => do
    let d ← generateTitleInfos env d
    let d ← generateLinkInfos env d
    let d ← generateAnnotationInfos env d
    let pagesVector := QVector.resize pagesVector doc.pageCount none
    let size := doc.pageSize
    let objects ← d.mLinkInfos.foldlM (fun objects info =>
      let rect := info.boundingRect
      QVector.appendAt objects info.page
        (⟨rect.left, rect.top, rect.right, rect.bottom, false, ObjectRect.ObjectType.Action,
          info.link⟩ : ObjectRect)) (List.replicate doc.pageCount [])
    let infos := d.mAnnotationInfos.map (fun info =>
      { info with annotation := info.annotation.setBoundingRectangle
                    (annotationRectangle size info.page) })
    let annots ← infos.foldlM (fun annots info =>
      QVector.appendAt annots info.page info.annotation) (List.replicate doc.pageCount [])
    let d := { d with mAnnotationInfos := infos }
    let filled := (List.range doc.pageCount).foldl (loadPage size objects annots)
      (w.pages, pagesVector)
    some ⟨true, d, { w with pages := filled.1 }, filled.2⟩

/-- Embeds `TextDocumentGenerator::doCloseDocument`: the returned `bool` and the private
data after the call. -/
def doCloseDocument (d : TextDocumentGeneratorPrivate) : Bool × TextDocumentGeneratorPrivate :=
  (true,
   { d with
     mDocument := none
     mTitlePositions := []
     mLinkPositions := []
     mLinkInfos := []
     mAnnotationPositions := []
     mAnnotationInfos := []
     mDocumentInfo := DocumentInfo.ctor
     mDocumentSynopsis := DocumentSynopsis.ctor })

/-- Embeds `TextDocumentGenerator::canGeneratePixmap`. -/
def canGeneratePixmap : Bool := true

/-- Embeds `TextDocumentGenerator::generatePixmap( request )`. Calling `setPixmap` through a
`request->page()` that is null or not the address of a page is undefined. -/
def generatePixmap (d : TextDocumentGeneratorPrivate) (request : PixmapRequest) (w : World) :
    Option World :=
  match d.mDocument with
  | none => some w
  | some doc =>
    let size := doc.pageSize
    let pixmap := QPixmap.ctor request.width request.height
    let pixmap := pixmap.paint PaintCommand.fillWhite
    let pixmap := pixmap.paint
      (PaintCommand.scale request.width size.width request.height size.height)
    let rect : QRect :=
      ⟨0, toInt32 (request.pageNumber * size.height), size.width, size.height⟩
    let pixmap := pixmap.paint
      (PaintCommand.translate 0 (toInt32 (toInt32 (request.pageNumber * size.height) * -1)))
    let pixmap := pixmap.paint (PaintCommand.drawContents doc rect)
    match request.page with
    | none => none
    | some address =>
      match w.pages[address]? with
      | none => none
      | some page =>
        let w : World := { w with pages := w.pages.set address (page.setPixmap request.id pixmap) }
        some (w.signalPixmapRequestDone request)

/-- Embeds `TextDocumentGenerator::exportFormats`: the static list, filled on the first
call. -/
def exportFormats : List ExportFormat :=
  [ExportFormat.standardFormat ExportFormat.StandardExportFormat.PlainText,
   ExportFormat.standardFormat ExportFormat.StandardExportFormat.PDF]

/-- Embeds `TextDocumentGenerator::exportTo( fileName, format )`: the returned `bool` and the
world after the call. -/
def exportTo (env : Env) (d : TextDocumentGeneratorPrivate) (fileName : QString)
    (format : ExportFormat) (w : World) : Bool × World :=
  match d.mDocument with
  | none => (false, w)
  | some doc =>
    if format.mimeTypeName = "application/pdf" then
      if !env.fileOpen fileName then
        (false, { w with fileEffects := w.fileEffects ++ [FileEffect.opened fileName false] })
      else
        (true, { w with fileEffects := w.fileEffects ++
          [FileEffect.opened fileName true, FileEffect.printed fileName doc] })
    else if format.mimeTypeName = "text/plain" then
      if !env.fileOpen fileName then
        (false, { w with fileEffects := w.fileEffects ++ [FileEffect.opened fileName false] })
      else
        (true, { w with fileEffects := w.fileEffects ++
          [FileEffect.opened fileName true, FileEffect.written fileName doc.toPlainText] })
    else
      (false, w)

end TextDocumentGenerator

end Okular

/-! ## core/textdocumentgenerator.cpp: meta data, synopsis and capabilities -/

namespace Okular

/-- Embeds `QVariant`: the invalid variant `QVariant()`, or a variant that holds a
string, an integer or a boolean. -/
inductive QVariant where
  | invalid
  | ofString (value : QString)
  | ofInt (value : Int)
  | ofBool (value : Bool)
  deriving DecidableEq, Repr

/-- Modelled from the spec: `Generator::GeneratorFeature` (core/generator.h is not
among the sources), the capability set `{TextExtraction, PrintNative, PrintToFile,
PrintPostscript, ReadRawData, Threaded}` advertised per backend. -/
inductive GeneratorFeature where
  | TextExtraction
  | PrintNative
  | PrintToFile
  | PrintPostscript
  | ReadRawData
  | Threaded
  deriving DecidableEq, Repr

/-- Modelled from the spec: the part of the base class `Generator` that holds the
capabilities the backend advertises (core/generator.cpp is not among the sources). -/
structure Generator where
  features : List GeneratorFeature
  deriving DecidableEq, Repr

/-- Modelled from the spec: `Generator::setFeature( feature, on )`, which adds the
capability to the advertised set, or takes it out when `on` is false. -/
def Generator.setFeature (g : Generator) (feature : GeneratorFeature) (enable : Bool) :
    Generator :=
  if enable then
    if g.features.contains feature then g else ⟨g.features ++ [feature]⟩
  else
    ⟨g.features.filter (fun f => f != feature)⟩

/-- Modelled from the spec: `Generator::hasFeature( feature )`, whether the backend
advertises the capability. -/
def Generator.hasFeature (g : Generator) (feature : GeneratorFeature) : Bool :=
  g.features.contains feature

/-- A `TextDocumentGenerator` object: its base class part and its private data. -/
structure TextDocumentGenerator where
  base : Generator
  d : TextDocumentGeneratorPrivate
  deriving DecidableEq, Repr

namespace TextDocumentGeneratorPrivate

/-- Embeds `TextDocumentGeneratorPrivate::metaData( key, option )`; a `QString` that is
returned becomes a variant holding it. -/
def metaData (d : TextDocumentGeneratorPrivate) (key : QString) (_option : QVariant) : QVariant :=
  if key = "DocumentTitle" then
    QVariant.ofString (d.mDocumentInfo.get "title")
  else
    QVariant.invalid

end TextDocumentGeneratorPrivate

namespace TextDocumentGenerator

/-- Embeds the constructor `TextDocumentGenerator( converter, parent, args )`, run on the
base class part `base` that the constructor of `Generator` has built. The three
calls `setFeature( feature )` have `on` at its default, true; the connections to the
converter's signals are `TextDocumentGeneratorPrivate.receive`. -/
def construct (base : Generator) : TextDocumentGenerator :=
  let base := base.setFeature GeneratorFeature.TextExtraction true
  let base := base.setFeature GeneratorFeature.PrintNative true
  let base := base.setFeature GeneratorFeature.PrintToFile true
  ⟨base, TextDocumentGeneratorPrivate.ctor⟩

/-- Embeds `TextDocumentGenerator::generateDocumentInfo`: the address of `mDocumentInfo`. -/
def generateDocumentInfo (d : TextDocumentGeneratorPrivate) : DocumentInfo :=
  d.mDocumentInfo

/-- Embeds `TextDocumentGenerator::generateDocumentSynopsis`: null (`none`) or the
address of `mDocumentSynopsis`. -/
def generateDocumentSynopsis (d : TextDocumentGeneratorPrivate) : Option DocumentSynopsis :=
  if !d.mDocumentSynopsis.hasChildNodes then
    none
  else
    some d.mDocumentSynopsis

end TextDocumentGenerator

end Okular

/-! ## core/document.h: the document engine

The member functions of `Document` are declared in core/document.h; their bodies
(core/document.cpp) are not among the sources and are modelled from the spec. -/

namespace Okular

/-- Modelled from the spec: the PageStore of `Document` (core/document.cpp is not
among the sources), an ordered collection of pages. -/
structure PageStore where
  pagesVector : List Page
  deriving DecidableEq, Repr

/-- Modelled from the spec: the ViewportManager of `Document` (core/document.cpp is
not among the sources), which "tracks current viewport plus bounded back/forward
history": the current viewport and two history stacks, top first, that hold at most
`bound` viewports each. -/
structure ViewportManager where
  bound : Nat
  current : DocumentViewport
  back : List DocumentViewport
  forward : List DocumentViewport
  deriving DecidableEq, Repr

/-- Modelled from the spec: pushing on a bounded history stack; the oldest entries
are the ones that fall out. -/
def ViewportManager.push (bound : Nat) (viewport : DocumentViewport)
    (stack : List DocumentViewport) : List DocumentViewport :=
  (viewport :: stack).take bound

/-- The stacks of a viewport manager respect its bound. -/
def ViewportManager.bounded (vm : ViewportManager) : Prop :=
  vm.back.length ≤ vm.bound ∧ vm.forward.length ≤ vm.bound

instance (vm : ViewportManager) : Decidable vm.bounded := by
  unfold ViewportManager.bounded; infer_instance

/-- Embeds `Qt::CaseSensitivity`. -/
inductive CaseSensitivity where
  | CaseInsensitive
  | CaseSensitive
  deriving DecidableEq, Repr

/-- Modelled from the spec: the TextLayout of a page, "word/character bounding boxes
used by SearchEngine". -/
abbrev TextLayout := List (QString × NormalizedRect)

/-- The collaborators of the search engine: the Generator Adapter's `textPage( page )`
for the page of an index, and the text comparison that gives the match-set of the
query on a text layout under the caller's case sensitivity. They are parameters. -/
structure SearchSource where
  textPage : Nat → TextLayout
  findAll : TextLayout → QString → CaseSensitivity → List NormalizedRect

namespace Document

/-- Embeds `Document::SearchType` (core/document.h). -/
inductive SearchType where
  | NextMatch
  | PreviousMatch
  | AllDocument
  | GoogleAll
  | GoogleAny
  deriving DecidableEq, Repr

/-- Embeds `Document::SearchStatus` (core/document.h). -/
inductive SearchStatus where
  | MatchFound
  | NoMatchFound
  | SearchCancelled
  deriving DecidableEq, Repr

/-- Modelled from the spec: the states of a search session, `Idle → Searching →
{Found, NotFound, Cancelled}`. -/
inductive SearchPhase where
  | Idle
  | Searching
  | Found
  | NotFound
  | Cancelled
  deriving DecidableEq, Repr

/-- Modelled from the spec: SearchState, per searchID: "current page cursor,
accumulated match set, search type, case sensitivity, color", with the query, the
accumulated "pages to notify" set and the state of the session. -/
structure SearchState where
  phase : SearchPhase
  type : SearchType
  text : QString
  caseSensitivity : CaseSensitivity
  color : Nat
  currentPage : Nat
  pageMatches : List (Nat × List NormalizedRect)
  pagesToNotify : List Nat
  deriving DecidableEq, Repr

/-- Modelled from the spec: the SearchEngine of `Document` (core/document.cpp is not
among the sources): the sessions by searchID, the continuation steps scheduled on the
owner thread's run loop (oldest first, each named by its searchID), the completion
notifications `searchFinished( id, status )` delivered so far and the page-changed
notifications delivered so far, both in order. -/
structure SearchEngine where
  searches : List (Int × SearchState)
  scheduled : List Int
  searchFinished : List (Int × SearchStatus)
  pageChanged : List Nat
  deriving DecidableEq, Repr

/-- A search engine without sessions, scheduled steps or delivered notifications. -/
def SearchEngine.idle : SearchEngine := ⟨[], [], [], []⟩

/-- The session of a searchID, if there is one. -/
def SearchEngine.session (e : SearchEngine) (searchID : Int) : Option SearchState :=
  (e.searches.find? (fun s => s.1 == searchID)).map Prod.snd

/-- Store the session of a searchID, in place of the one it had. -/
def SearchEngine.setSession (e : SearchEngine) (searchID : Int) (s : SearchState) :
    SearchEngine :=
  { e with searches := (searchID, s) :: e.searches.filter (fun s => s.1 != searchID) }

/-- Modelled from the spec: `Document::pages()`, the PageStore's `pageCount()`. -/
def pages (store : PageStore) : Nat := store.pagesVector.length

/-- Modelled from the spec: `Document::page( number )`, "`page(index) ->
optional<Page&>` (fails with NotFound when index out of range)"; core/document.h:
"returns the page object for the given page number or 0 if the number is out of
range". -/
def page (store : PageStore) (number : Int) : Option Page :=
  if number < 0 then none else store.pagesVector[number.toNat]?

/-- Modelled from the spec: `Document::historyAtBegin()`, whether the back stack is
empty. -/
def historyAtBegin (vm : ViewportManager) : Bool := vm.back.isEmpty

/-- Modelled from the spec: `Document::historyAtEnd()`, whether the forward stack is
empty. -/
def historyAtEnd (vm : ViewportManager) : Bool := vm.forward.isEmpty

/-- Modelled from the spec: the history part of `Document::setViewport( viewport )`:
"pushes the previous viewport onto the back stack unless the new viewport equals the
current one"; equality of viewports is structural. -/
def setViewport (vm : ViewportManager) (viewport : DocumentViewport) : ViewportManager :=
  if viewport = vm.current then
    vm
  else
    { vm with current := viewport, back := ViewportManager.push vm.bound vm.current vm.back }

/-- Modelled from the spec: `Document::setPrevViewport()`: "`setPrevViewport` /
`setNextViewport` pop/push between stacks; at either end they are no-ops". The top
of the back stack becomes current, the viewport that was current goes on the forward
stack. -/
def setPrevViewport (vm : ViewportManager) : ViewportManager :=
  match vm.back with
  | [] => vm
  | previous :: rest =>
    { vm with
      current := previous
      back := rest
      forward := ViewportManager.push vm.bound vm.current vm.forward }

/-- Modelled from the spec: `Document::setNextViewport()`: the top of the forward
stack becomes current, the viewport that was current goes on the back stack; a no-op
at the end of the history. -/
def setNextViewport (vm : ViewportManager) : ViewportManager :=
  match vm.forward with
  | [] => vm
  | next :: rest =>
    { vm with
      current := next
      forward := rest
      back := ViewportManager.push vm.bound vm.current vm.back }

/-- Modelled from the spec: `Document::searchText( searchID, text, fromStart,
caseSensitivity, type, moveViewport, color )` for the search type `AllDocument`: the
session of the id is created (or started again) in the state Searching with its
cursor on the first page and nothing accumulated, and its first continuation step is
scheduled. -/
def searchTextAllDocument (e : SearchEngine) (searchID : Int) (text : QString)
    (caseSensitivity : CaseSensitivity) (color : Nat) : SearchEngine :=
  let s : SearchState :=
    { phase := SearchPhase.Searching
      type := SearchType.AllDocument
      text := text
      caseSensitivity := caseSensitivity
      color := color
      currentPage := 0
      pageMatches := []
      pagesToNotify := [] }
  { e.setSession searchID s with scheduled := e.scheduled ++ [searchID] }

/-- Modelled from the spec: what a continuation step does to its session when it
"processes one page's TextLayout" and "updates the accumulated pages to notify set":
the match-set of the page under the cursor, when it is not empty, is accumulated and
the page is to notify; the cursor moves to the next page. -/
def SearchState.processPage (source : SearchSource) (s : SearchState) : SearchState :=
  let found := source.findAll (source.textPage s.currentPage) s.text s.caseSensitivity
  if found.isEmpty then
    { s with currentPage := s.currentPage + 1 }
  else
    { s with
      pageMatches := s.pageMatches ++ [(s.currentPage, found)]
      pagesToNotify := s.pagesToNotify ++ [s.currentPage]
      currentPage := s.currentPage + 1 }

/-- Modelled from the spec: the terminal status of an `AllDocument` search, found when
a match-set has been accumulated. -/
def SearchState.status (s : SearchState) : SearchStatus :=
  if s.pageMatches.isEmpty then SearchStatus.NoMatchFound else SearchStatus.MatchFound

/-- Modelled from the spec: the continuation step `doContinueAllDocumentSearch` of the
session `searchID`. "A continuation step must check for cancellation before doing
further work"; it "processes one page's TextLayout, updates the accumulated pages to
notify set, and either reschedules itself (more pages pending) or finalizes with a
terminal status delivered via a completion notification carrying (searchID,
status)"; the pages to notify get their page-changed notification then. -/
def doContinueAllDocumentSearch (source : SearchSource) (store : PageStore) (e : SearchEngine)
    (searchID : Int) : SearchEngine :=
  match e.session searchID with
  | none => e
  | some s =>
    if s.phase ≠ SearchPhase.Searching then
      e
    else if s.currentPage < pages store then
      { e.setSession searchID (s.processPage source) with
        scheduled := e.scheduled ++ [searchID] }
    else
      let phase := if s.pageMatches.isEmpty then SearchPhase.NotFound else SearchPhase.Found
      { e.setSession searchID { s with phase := phase } with
        searchFinished := e.searchFinished ++ [(searchID, s.status)]
        pageChanged := e.pageChanged ++ s.pagesToNotify }

/-- Modelled from the spec: the owner thread's run loop, which takes the scheduled
continuation steps one after the other; `steps` bounds how many it takes. -/
def runLoop (source : SearchSource) (store : PageStore) : Nat → SearchEngine → SearchEngine
  | 0, e => e
  | steps + 1, e =>
    match e.scheduled with
    | [] => e
    | searchID :: rest =>
      runLoop source store steps
        (doContinueAllDocumentSearch source store { e with scheduled := rest } searchID)

/-- The pages among `count` pages from `first` on which a query has a match, in index
order. -/
def hitsFrom (source : SearchSource) (text : QString) (caseSensitivity : CaseSensitivity)
    (first count : Nat) : List Nat :=
  (List.range' first count).filter
    (fun p => !(source.findAll (source.textPage p) text caseSensitivity).isEmpty)

end Document

end Okular

/-! ## ui/formwidgets.cpp -/

namespace Okular

/-- Embeds `QPoint`. -/
structure QPoint where
  x : Int
  y : Int
  deriving DecidableEq, Repr

/-- Embeds `QRect::contains( point )` as Qt defines it: the edges are included, and a rect
whose right (bottom) edge lies more than one before its left (top) edge has the two
swapped. -/
def QRect.contains (r : QRect) (p : QPoint) : Bool :=
  let l := if r.right < r.left - 1 then r.right else r.left
  let rr := if r.right < r.left - 1 then r.left else r.right
  let t := if r.bottom < r.top - 1 then r.bottom else r.top
  let b := if r.bottom < r.top - 1 then r.top else r.bottom
  !(decide (p.x < l) || decide (p.x > rr)) && !(decide (p.y < t) || decide (p.y > b))

/-- Embeds `Okular::Annotation::AdditionalActionType`. -/
inductive AdditionalActionType where
  | PageOpening
  | PageClosing
  | CursorEntering
  | CursorLeaving
  | MousePressed
  | MouseReleased
  | FocusIn
  | FocusOut
  deriving DecidableEq, Repr

/-- What the form widgets read from an `Okular::FormField` (core/form.h is not among
the sources): the id, the state and the siblings of a button field, the activation
action and the additional actions by trigger (null is `none`). -/
structure FormField where
  id : Int
  state : Bool
  siblings : List Int
  activationAction : Option Action
  additionalActions : List (AdditionalActionType × Action)
  deriving DecidableEq, Repr

/-- Embeds `FormField::additionalAction( type )`: the action for the trigger, or null. -/
def FormField.additionalAction (ff : FormField) (type : AdditionalActionType) : Option Action :=
  (ff.additionalActions.find? (fun entry => entry.1 == type)).map Prod.snd

/-- The nine form widget classes that `DEFINE_ADDITIONAL_ACTIONS` is instantiated for. -/
inductive FormClass where
  | PushButtonEdit
  | CheckBoxEdit
  | RadioButtonEdit
  | FormLineEdit
  | TextAreaEdit
  | FileEdit
  | ListEdit
  | ComboEdit
  | SignatureEdit
  deriving DecidableEq, Repr

/-- Whether `dynamic_cast<QAbstractButton *>` succeeds on a widget of the class: the
base classes are `QPushButton`, `QCheckBox`, `QRadioButton` and `QAbstractButton`. -/
def FormClass.isAbstractButton : FormClass → Bool
  | FormClass.PushButtonEdit => true
  | FormClass.CheckBoxEdit => true
  | FormClass.RadioButtonEdit => true
  | FormClass.SignatureEdit => true
  | _ => false

/-- Whether a button of the class is checkable: Qt makes a `QCheckBox` and a
`QRadioButton` checkable, and formwidgets.cpp never calls `setCheckable`. -/
def FormClass.checkable : FormClass → Bool
  | FormClass.CheckBoxEdit => true
  | FormClass.RadioButtonEdit => true
  | _ => false

/-- A form widget object: its class, the size of `QWidget::rect()`, the form field
`m_ff`, whether the button is checked, the address of its `QButtonGroup` (`group()`,
null is `none`) and the page number of its page item (`pageItem()->pageNumber()`,
`none` when `m_pageItem` is null). -/
structure FormWidget where
  formClass : FormClass
  width : Int
  height : Int
  m_ff : FormField
  checked : Bool
  group : Option Nat
  pageNumber : Option Int
  deriving DecidableEq, Repr

/-- Embeds `QWidget::rect()`: the rectangle `( 0, 0, width, height )`. -/
def FormWidget.rect (w : FormWidget) : QRect := ⟨0, 0, w.width, w.height⟩

/-- What an event handler of a form widget does, in order: a call
`m_controller->signalAction( act )`, or the call of the handler of the base class. -/
inductive HandlerEffect where
  | signalAction (act : Action)
  | baseClassHandler
  deriving DecidableEq, Repr

/-- Embeds `QMouseEvent`: the position `localPos().toPoint()`. -/
structure QMouseEvent where
  localPos : QPoint
  deriving DecidableEq, Repr

namespace FormWidget

/-- The handlers of `DEFINE_ADDITIONAL_ACTIONS` other than `mouseReleaseEvent`: the
additional action for the trigger is signalled if there is one, then the handler of
the base class runs. -/
def additionalActionHandler (w : FormWidget) (type : AdditionalActionType) : List HandlerEffect :=
  match w.m_ff.additionalAction type with
  | some act => [HandlerEffect.signalAction act, HandlerEffect.baseClassHandler]
  | none => [HandlerEffect.baseClassHandler]

/-- Embeds `FormClass::mousePressEvent( event )` of `DEFINE_ADDITIONAL_ACTIONS`. -/
def mousePressEvent (w : FormWidget) (_event : QMouseEvent) : List HandlerEffect :=
  w.additionalActionHandler AdditionalActionType.MousePressed

/-- Embeds `FormClass::focusInEvent( event )` of `DEFINE_ADDITIONAL_ACTIONS`. -/
def focusInEvent (w : FormWidget) : List HandlerEffect :=
  w.additionalActionHandler AdditionalActionType.FocusIn

/-- Embeds `FormClass::focusOutEvent( event )` of `DEFINE_ADDITIONAL_ACTIONS`. -/
def focusOutEvent (w : FormWidget) : List HandlerEffect :=
  w.additionalActionHandler AdditionalActionType.FocusOut

/-- Embeds `FormClass::leaveEvent( event )` of `DEFINE_ADDITIONAL_ACTIONS`. -/
def leaveEvent (w : FormWidget) : List HandlerEffect :=
  w.additionalActionHandler AdditionalActionType.CursorLeaving

/-- Embeds `FormClass::enterEvent( event )` of `DEFINE_ADDITIONAL_ACTIONS`. -/
def enterEvent (w : FormWidget) : List HandlerEffect :=
  w.additionalActionHandler AdditionalActionType.CursorEntering

end FormWidget

/-- Embeds `QButtonGroup`: whether it is exclusive, the addresses of its buttons in the
order they were added, the id set for a button, and whether `buttonClicked` is
connected to `FormWidgetsController::slotButtonClicked`. -/
structure QButtonGroup where
  exclusive : Bool
  buttons : List Nat
  ids : List (Nat × Int)
  clickedConnected : Bool
  deriving DecidableEq, Repr

/-- Embeds `QButtonGroup::QButtonGroup()`: Qt makes a new group exclusive; it has no
button. -/
def QButtonGroup.ctor : QButtonGroup := ⟨true, [], [], false⟩

/-- Embeds `FormWidgetsController::RadioData`: the ids of a group of buttons and the address
of their `QButtonGroup`. -/
structure RadioData where
  ids : List Int
  group : Nat
  deriving DecidableEq, Repr

/-- The members `m_radios` and `m_buttons` of `FormWidgetsController`; `m_buttons` maps
an id to the address of a button. -/
structure FormWidgetsController where
  m_radios : List RadioData
  m_buttons : List (Int × Nat)
  deriving DecidableEq, Repr

/-- A signal emitted by the `FormWidgetsController`, with its arguments. -/
inductive ControllerSignal where
  | action (act : Action)
  | formButtonsChangedByWidget (pageNumber : Int) (formButtons : List FormField)
      (checked : List Bool)
  deriving DecidableEq, Repr

/-- The objects the controller acts on: the form widgets and the button groups
allocated so far (the address of an object is its index) and the signals the
controller has emitted, in order. -/
structure Gui where
  widgets : List FormWidget
  groups : List QButtonGroup
  emitted : List ControllerSignal
  deriving DecidableEq, Repr

namespace Gui

/-- Replace the widget at an address by its image under `f`. -/
def modifyWidget (g : Gui) (address : Nat) (f : FormWidget → FormWidget) : Gui :=
  match g.widgets[address]? with
  | some w => { g with widgets := g.widgets.set address (f w) }
  | none => g

/-- Replace the button group at an address by its image under `f`. -/
def modifyGroup (g : Gui) (address : Nat) (f : QButtonGroup → QButtonGroup) : Gui :=
  match g.groups[address]? with
  | some grp => { g with groups := g.groups.set address (f grp) }
  | none => g

/-- Embeds `QButtonGroup::setExclusive( exclusive )` on the group at an address. -/
def setExclusive (g : Gui) (group : Nat) (exclusive : Bool) : Gui :=
  g.modifyGroup group (fun grp => { grp with exclusive := exclusive })

/-- Whether the button group of a widget is exclusive; a widget without a group is
in no exclusive group. -/
def inExclusiveGroup (g : Gui) (w : FormWidget) : Bool :=
  match w.group with
  | some address =>
    match g.groups[address]? with
    | some grp => grp.exclusive
    | none => false
  | none => false

/-- The other buttons of a button's group get unchecked: what Qt does when a button
is checked in an exclusive group. -/
def uncheckOthers (g : Gui) (button : Nat) (group : Option Nat) : Gui :=
  { g with widgets := g.widgets.enum.map (fun (entry : Nat × FormWidget) =>
      if entry.1 != button && entry.2.group == group then
        { entry.2 with checked := false }
      else entry.2) }

/-- Embeds `QAbstractButton::setChecked( checked )` on the button at an address, as Qt
defines it for a button in a `QButtonGroup`: nothing happens on a button that is not
checkable or has the state already; the checked button of an exclusive group cannot
be unchecked; a button that gets checked in an exclusive group unchecks the others
of its group. A dangling address is undefined. -/
def setChecked (g : Gui) (button : Nat) (checked : Bool) : Option Gui :=
  match g.widgets[button]? with
  | none => none
  | some w =>
    if !w.formClass.checkable || w.checked == checked then
      some g
    else if !checked && g.inExclusiveGroup w then
      some g
    else
      let g1 := g.modifyWidget button (fun w => { w with checked := checked })
      if checked && g.inExclusiveGroup w then
        some (g1.uncheckOthers button w.group)
      else
        some g1

/-- Embeds `QButtonGroup::addButton( button )` followed by `setId( button, id )` on the
group at an address: the button leaves the group it was in, becomes the last button
of the group and has the id; a checked button that joins an exclusive group
unchecks the others of the group. -/
def addButton (g : Gui) (group button : Nat) (id : Int) : Gui :=
  let g : Gui := { g with groups := g.groups.map (fun (grp : QButtonGroup) =>
    { grp with
      buttons := grp.buttons.filter (fun b => b != button)
      ids := grp.ids.filter (fun entry => entry.1 != button) }) }
  let g := g.modifyGroup group (fun grp =>
    { grp with buttons := grp.buttons ++ [button], ids := grp.ids ++ [(button, id)] })
  let g := g.modifyWidget button (fun w => { w with group := some group })
  match g.widgets[button]? with
  | some w => if w.checked && g.inExclusiveGroup w then g.uncheckOthers button w.group else g
  | none => g

/-- Embeds `emit`: the signal is added to the emitted ones. -/
def emit (g : Gui) (signal : ControllerSignal) : Gui :=
  { g with emitted := g.emitted ++ [signal] }

end Gui

namespace CheckBoxEdit

/-- Embeds `CheckBoxEdit::doActivateAction()`: `m_controller->signalAction` emits the
signal `action`. -/
def doActivateAction (g : Gui) (check : FormWidget) : Gui :=
  match check.m_ff.activationAction with
  | some act => g.emit (ControllerSignal.action act)
  | none => g

end CheckBoxEdit

namespace FormWidgetsController

/-- Embeds `FormWidgetsController::signalAction( a )`. -/
def signalAction (g : Gui) (a : Action) : Gui := g.emit (ControllerSignal.action a)

/-- Embeds `FormWidgetsController::registerRadioButton( fwButton, formButton )`; `fwButton`
is the address of a form widget or null. Going through a dangling address is
undefined. -/
def registerRadioButton (c : FormWidgetsController) (g : Gui) (fwButton : Option Nat)
    (formButton : FormField) : Option (FormWidgetsController × Gui) :=
  match fwButton with
  | none => some (c, g)
  | some button =>
    match g.widgets[button]? with
    | none => none
    | some w =>
      if !w.formClass.isAbstractButton then
        some (c, g)
      else
        let id := formButton.id
        let c : FormWidgetsController :=
          { c with m_buttons := c.m_buttons.filter (fun entry => entry.1 != id) ++ [(id, button)] }
        match c.m_radios.find? (fun data => data.ids.contains id) with
        | some data =>
          if data.group < g.groups.length then
            some (c, g.addButton data.group button id)
          else
            none
        | none =>
          let siblings := formButton.siblings
          let group := g.groups.length
          let newdata : RadioData := ⟨siblings ++ [id], group⟩
          let g : Gui := { g with groups := g.groups ++ [QButtonGroup.ctor] }
          let g := g.addButton group button id
          let g := if siblings.isEmpty then g.setExclusive group false else g
          let g := g.modifyGroup group (fun grp => { grp with clickedConnected := true })
          some ({ c with m_radios := c.m_radios ++ [newdata] }, g)

/-- The block of `slotButtonClicked` for a check box whose form field state is true:
"disable the exclusive status temporarily and uncheck it". -/
def uncheckTemporarily (g : Gui) (button group : Nat) (grp : QButtonGroup) : Option Gui :=
  let wasExclusive := grp.exclusive
  let g := g.setExclusive group false
  match g.setChecked button false with
  | none => none
  | some g => some (g.setExclusive group wasExclusive)

/-- The second half of `slotButtonClicked`, from the list of the buttons of the group
on: the checked states of the buttons and the states of their form fields are
collected, `formButtonsChangedByWidget` is emitted when the two differ, and a check
box runs its activation action. A button of the group that is no widget is
undefined. -/
def reportButtons (g : Gui) (w : FormWidget) (group : Nat) (pageNumber : Int) : Option Gui :=
  match g.groups[group]? with
  | none => none
  | some grp =>
    let buttons := grp.buttons
    if buttons.all (fun b => decide (b < g.widgets.length)) then
      let members := buttons.filterMap (fun b => g.widgets[b]?)
      let checked := members.map (fun m => m.checked)
      let formButtons := members.map (fun m => m.m_ff)
      let prevChecked := members.map (fun m => m.m_ff.state)
      let g :=
        if checked != prevChecked then
          g.emit (ControllerSignal.formButtonsChangedByWidget pageNumber formButtons checked)
        else g
      some (if w.formClass == FormClass.CheckBoxEdit then CheckBoxEdit.doActivateAction g w
        else g)
    else
      none

/-- Embeds `FormWidgetsController::slotButtonClicked( button )`; `button` is the address of
the button that was clicked. A button without a group, a check box or radio button
without a page item, and a dangling address are undefined. The slots connected to
the emitted signals are outside this function. -/
def slotButtonClicked (g : Gui) (button : Nat) : Option Gui :=
  match g.widgets[button]? with
  | none => none
  | some w =>
    let check := w.formClass == FormClass.CheckBoxEdit
    let radio := w.formClass == FormClass.RadioButtonEdit
    match w.group, (if check || radio then w.pageNumber else some (-1)) with
    | some group, some pageNumber =>
      match g.groups[group]? with
      | none => none
      | some grp =>
        let unchecked : Option Gui :=
          if check && w.m_ff.state then uncheckTemporarily g button group grp else some g
        match unchecked with
        | none => none
        | some g => reportButtons g w group pageNumber
    | _, _ => none

end FormWidgetsController

end Okular

/-! ## core/document.h: the search ids, and ui/findbar.cpp -/

namespace Okular

/-- Embeds `#define PART_SEARCH_ID 1` (core/document.h). -/
def PART_SEARCH_ID : Int := 1

/-- Embeds `#define PAGEVIEW_SEARCH_ID 2` (core/document.h). -/
def PAGEVIEW_SEARCH_ID : Int := 2

/-- Embeds `#define SW_SEARCH_ID 3` (core/document.h). -/
def SW_SEARCH_ID : Int := 3

/-- Embeds `#define PRESENTATION_SEARCH_ID 4` (core/document.h). -/
def PRESENTATION_SEARCH_ID : Int := 4

/-- The four search ids that core/document.h defines, in the order of the file. -/
def searchIds : List Int :=
  [PART_SEARCH_ID, PAGEVIEW_SEARCH_ID, SW_SEARCH_ID, PRESENTATION_SEARCH_ID]

/-- Embeds `qRgb( r, g, b )` as Qt defines it: an opaque colour, eight bits a channel. -/
def qRgb (r g b : Nat) : Nat :=
  255 * 2 ^ 24 + (r % 256) * 2 ^ 16 + (g % 256) * 2 ^ 8 + b % 256

/-- A call that the find bar makes on its `SearchLineEdit` beyond the setters. -/
inductive SearchLineEditCall where
  | findNext
  | findPrev
  | restartSearch
  | selectAll
  | setFocus
  deriving DecidableEq, Repr

/-- What the find bar reads and writes on its `SearchLineEdit` (ui/searchlineedit.cpp
is not among the sources): the text, the value that each setter stores, and the
other calls made on the line edit, in order. -/
structure SearchLineEdit where
  text : QString
  searchCaseSensitivity : CaseSensitivity
  searchMinimumLength : Int
  searchType : Document.SearchType
  searchId : Int
  searchColor : Nat
  searchMoveViewport : Bool
  searchFromStart : Bool
  toolTip : QString
  calls : List SearchLineEditCall
  deriving DecidableEq, Repr

namespace SearchLineEdit

/-- Embeds `SearchLineEdit::setSearchCaseSensitivity`. -/
def setSearchCaseSensitivity (e : SearchLineEdit) (cs : CaseSensitivity) : SearchLineEdit :=
  { e with searchCaseSensitivity := cs }

/-- Embeds `SearchLineEdit::setSearchMinimumLength`. -/
def setSearchMinimumLength (e : SearchLineEdit) (length : Int) : SearchLineEdit :=
  { e with searchMinimumLength := length }

/-- Embeds `SearchLineEdit::setSearchType`. -/
def setSearchType (e : SearchLineEdit) (type : Document.SearchType) : SearchLineEdit :=
  { e with searchType := type }

/-- Embeds `SearchLineEdit::setSearchId`. -/
def setSearchId (e : SearchLineEdit) (id : Int) : SearchLineEdit :=
  { e with searchId := id }

/-- Embeds `SearchLineEdit::setSearchColor`. -/
def setSearchColor (e : SearchLineEdit) (color : Nat) : SearchLineEdit :=
  { e with searchColor := color }

/-- Embeds `SearchLineEdit::setSearchMoveViewport`. -/
def setSearchMoveViewport (e : SearchLineEdit) (move : Bool) : SearchLineEdit :=
  { e with searchMoveViewport := move }

/-- Embeds `SearchLineEdit::setSearchFromStart`. -/
def setSearchFromStart (e : SearchLineEdit) (fromStart : Bool) : SearchLineEdit :=
  { e with searchFromStart := fromStart }

/-- Embeds `QWidget::setToolTip`. -/
def setToolTip (e : SearchLineEdit) (toolTip : QString) : SearchLineEdit :=
  { e with toolTip := toolTip }

/-- One of the calls `findNext()`, `findPrev()`, `restartSearch()`, `selectAll()` and
`setFocus()` on the line edit: the call is recorded. -/
def call (e : SearchLineEdit) (c : SearchLineEditCall) : SearchLineEdit :=
  { e with calls := e.calls ++ [c] }

end SearchLineEdit

/-- A `FindBar` object: the line edit of `m_search`, whether the actions
`m_caseSensitiveAct` and `m_fromCurrentPageAct` are checked, and whether the bar is
visible. -/
structure FindBar where
  m_search : SearchLineEdit
  m_caseSensitiveAct : Bool
  m_fromCurrentPageAct : Bool
  visible : Bool
  deriving DecidableEq, Repr

/-- What happens to a find bar after its construction: a click on one of its three
buttons, a toggle of one of its two actions, or a call of `focusAndSetCursor`. -/
inductive FindBar.Event where
  | closeClicked
  | findNextClicked
  | findPrevClicked
  | caseSensitiveToggled
  | fromCurrentPageToggled
  | focusAndSetCursor
  deriving DecidableEq, Repr

namespace FindBar

/-- Embeds the constructor `FindBar( document, parent )`, run on the line edit that
`new SearchLineWidget( this, document )` has built. The two actions of the options
menu are checkable and start unchecked; the bar ends hidden. -/
def ctor (lineEdit : SearchLineEdit) : FindBar :=
  let e := lineEdit.setSearchCaseSensitivity CaseSensitivity.CaseInsensitive
  let e := e.setSearchMinimumLength 0
  let e := e.setSearchType Document.SearchType.NextMatch
  let e := e.setSearchId PART_SEARCH_ID
  let e := e.setSearchColor (qRgb 255 255 64)
  let e := e.setSearchMoveViewport true
  let e := e.setToolTip "Text to search for"
  ⟨e, false, false, false⟩

/-- Embeds `FindBar::text()`. -/
def text (bar : FindBar) : QString := bar.m_search.text

/-- Embeds `FindBar::caseSensitivity()`. -/
def caseSensitivity (bar : FindBar) : CaseSensitivity :=
  if bar.m_caseSensitiveAct then CaseSensitivity.CaseSensitive
  else CaseSensitivity.CaseInsensitive

/-- Embeds `FindBar::focusAndSetCursor()`. -/
def focusAndSetCursor (bar : FindBar) : FindBar :=
  { bar with
    m_search := (bar.m_search.call SearchLineEditCall.selectAll).call
      SearchLineEditCall.setFocus }

/-- Embeds `FindBar::findNext()`. -/
def findNext (bar : FindBar) : FindBar :=
  { bar with
    m_search := (bar.m_search.setSearchType Document.SearchType.NextMatch).call
      SearchLineEditCall.findNext }

/-- Embeds `FindBar::findPrev()`. -/
def findPrev (bar : FindBar) : FindBar :=
  { bar with
    m_search := (bar.m_search.setSearchType Document.SearchType.PreviousMatch).call
      SearchLineEditCall.findPrev }

/-- Embeds `FindBar::caseSensitivityChanged()`. -/
def caseSensitivityChanged (bar : FindBar) : FindBar :=
  { bar with
    m_search := (bar.m_search.setSearchCaseSensitivity
      (if bar.m_caseSensitiveAct then CaseSensitivity.CaseSensitive
       else CaseSensitivity.CaseInsensitive)).call SearchLineEditCall.restartSearch }

/-- Embeds `FindBar::fromCurrentPageChanged()`. -/
def fromCurrentPageChanged (bar : FindBar) : FindBar :=
  { bar with m_search := bar.m_search.setSearchFromStart (!bar.m_fromCurrentPageAct) }

/-- The connections made in the constructor: `clicked()` of the three buttons runs
`close()`, `findNext()` and `findPrev()`; `toggled( bool )` of an action, emitted when
its checked state has flipped, runs the slot of the action. -/
def handle (bar : FindBar) : FindBar.Event → FindBar
  | Event.closeClicked => { bar with visible := false }
  | Event.findNextClicked => bar.findNext
  | Event.findPrevClicked => bar.findPrev
  | Event.caseSensitiveToggled =>
    caseSensitivityChanged { bar with m_caseSensitiveAct := !bar.m_caseSensitiveAct }
  | Event.fromCurrentPageToggled =>
    fromCurrentPageChanged { bar with m_fromCurrentPageAct := !bar.m_fromCurrentPageAct }
  | Event.focusAndSetCursor => bar.focusAndSetCursor

end FindBar

end Okular

/-! ## Sample data of the document engine and the form widgets -/

namespace Okular

namespace Sample

/-- A viewport on a page, without re-centering or auto-fit. -/
def viewportOn (pageNumber : Int) : DocumentViewport :=
  ⟨pageNumber, ⟨false, 0, 0, DocumentViewport.Position.Center⟩, ⟨false, false, false⟩⟩

/-- A viewport manager on page 3 that has been on page 1 before, with room for 100
viewports in each stack. -/
def viewports : ViewportManager := ⟨100, viewportOn 3, [viewportOn 1], []⟩

/-- A page store of seven pages. -/
def pageStore : PageStore :=
  ⟨(List.range 7).map (fun i => Page.ctor i 100 100 Rotation.Rotation0)⟩

/-- A search source: the pages 2 and 5 hold the word "okular", the other pages the
word "other"; a query matches the words equal to it. -/
def searchSource : SearchSource where
  textPage := fun p =>
    if p = 2 ∨ p = 5 then [("okular", ⟨0, 0, 1, 1⟩)] else [("other", ⟨0, 0, 1, 1⟩)]
  findAll := fun layout text _ => (layout.filter (fun word => word.1 == text)).map Prod.snd

/-- A button field with the id 7 and the sibling 8, whose state is true, with an
activation action and an additional action for the mouse release. -/
def checkField : FormField :=
  ⟨7, true, [8], some ⟨10⟩, [(AdditionalActionType.MouseReleased, ⟨11⟩)]⟩

/-- The sibling of `checkField`, whose state is false. -/
def siblingField : FormField := ⟨8, false, [7], none, []⟩

/-- A checked check box of 20 x 20 pixels for `checkField`, in the group at address 0,
on page 3. -/
def checkBox : FormWidget := ⟨FormClass.CheckBoxEdit, 20, 20, checkField, true, some 0, some 3⟩

/-- An unchecked check box for `siblingField` in the same group. -/
def siblingBox : FormWidget :=
  ⟨FormClass.CheckBoxEdit, 20, 20, siblingField, false, some 0, some 3⟩

/-- The two check boxes in one exclusive group. -/
def gui : Gui := ⟨[checkBox, siblingBox], [⟨true, [0, 1], [(0, 7), (1, 8)], true⟩], []⟩

/-- A check box that is in no group yet. -/
def freshBox : FormWidget := ⟨FormClass.CheckBoxEdit, 20, 20, checkField, false, none, some 3⟩

/-- A gui with one widget and no group. -/
def freshGui : Gui := ⟨[freshBox], [], []⟩

/-- A controller that has registered nothing. -/
def controller : FormWidgetsController := ⟨[], []⟩

end Sample

end Okular

/-! ## Sample data -/

namespace Okular

namespace Sample

/-- Sample helpers: a text position lies on the page `position / 100`, a range that
ends before it starts has no page. -/
def env : Env where
  calculateBoundingRect := fun _ startPosition endPosition =>
    (⟨0, 0, 1, 1⟩, if endPosition < startPosition then -1 else startPosition / 100)
  calculateViewport := fun _ block => ⟨block, ⟨false, 0, 0, DocumentViewport.Position.Center⟩,
    ⟨false, false, false⟩⟩
  viewportToString := fun viewport => toString viewport.pageNumber
  annotationExternal := 128
  keyString := fun _ => "title"
  keyTitle := fun _ => "Title"
  fileOpen := fun _ => true

/-- A two-page text document. -/
def document : QTextDocument := ⟨2, ⟨100, 100⟩, "text"⟩

/-- A sample converter. It fails on the file "broken.txt" after it has emitted a
metadata entry, a title, a link and an annotation; on any other file it emits a
title, a link on the second page and a metadata entry and returns `document`. -/
def converter : TextDocumentConverter where
  convert := fun fileName =>
    if fileName = "broken.txt" then
      ([ConverterSignal.addMetaData "author" "A" "Author", ConverterSignal.addTitle 1 "Intro" 0,
        ConverterSignal.addAction (some ⟨1⟩) 120 130,
        ConverterSignal.addAnnotation (some ⟨2, 0, none⟩) 10 20], none)
    else
      ([ConverterSignal.addTitle 1 "Intro" 0, ConverterSignal.addAction (some ⟨1⟩) 120 130,
        ConverterSignal.addMetaData "author" "A" "Author"], some document)

/-- A world without pages, signals or file effects. -/
def world : World := ⟨[], [], []⟩

/-- The private data of a generator whose document is `document`. -/
def loadedPrivate : TextDocumentGeneratorPrivate :=
  { TextDocumentGeneratorPrivate.ctor with mDocument := some document }

/-- A pixmap cached earlier. -/
def oldPixmap : QPixmap := ⟨5, 5, [PaintCommand.fillWhite]⟩

/-- A world with the two pages of `document`; the second page caches `oldPixmap` for
the observers 3 and 4. -/
def pagesWorld : World :=
  ⟨[Page.ctor 0 100 100 Rotation.Rotation0,
    { Page.ctor 1 100 100 Rotation.Rotation0 with pixmaps := [(3, oldPixmap), (4, oldPixmap)] }],
   [], []⟩

/-- A request of observer 3 for the second page at 30 x 40 pixels. -/
def request : PixmapRequest := ⟨3, 1, 30, 40, some 1⟩

/-- A request of observer 3 for the second page at 0 x 40 pixels. -/
def emptyRequest : PixmapRequest := ⟨3, 1, 0, 40, some 1⟩

/-- A converter for a text with a heading of level 1, a heading of level 3 below it
and another heading of level 1: it emits the three titles and returns `document`. -/
def skippingConverter : TextDocumentConverter where
  convert := fun _ =>
    ([ConverterSignal.addTitle 1 "One" 0, ConverterSignal.addTitle 3 "Detail" 1,
      ConverterSignal.addTitle 1 "Two" 2], some document)

/-- The result of loading "notes.txt" with the sample converter into a fresh
generator, for a caller's vector of three entries. -/
def loaded : TextDocumentGenerator.Loaded :=
  { result := true
    d :=
      { mDocument := some document
        mTitlePositions := [⟨1, "Intro", 0⟩]
        mLinkPositions := [⟨⟨1⟩, 120, 130⟩]
        mLinkInfos := [⟨⟨1⟩, ⟨0, 0, 1, 1⟩, 1⟩]
        mAnnotationPositions := []
        mAnnotationInfos := []
        mDocumentInfo := ⟨[⟨"author", "A", "Author"⟩]⟩
        mDocumentSynopsis := ⟨[⟨"Intro", [("Viewport", "0")], []⟩], [0]⟩ }
    world :=
      { pages :=
          [Page.ctor 0 100 100 Rotation.Rotation0,
           (Page.ctor 1 100 100 Rotation.Rotation0).setObjectRects
             [⟨0, 0, 1, 1, false, ObjectRect.ObjectType.Action, ⟨1⟩⟩]]
        pixmapRequestsDone := []
        fileEffects := [] }
    pagesVector := [some 0, some 1] }

end Sample

end Okular

/-! ## Theorems: signature information -/

/-- C7. For a `PopplerSignatureInfo` constructed from a Poppler validation info,
`signatureStatus()` returns the Okular status of the same name for each of the seven
Poppler statuses, returns `SignatureStatusUnknown` for every other stored value, and
returns `SignatureValid` if and only if Poppler reported `SignatureValid`. -/
theorem PopplerSignatureInfo.signatureStatus_same_name (P : Poppler.Enumerators)
    (hP : P.wellFormed) (info : Poppler.SignatureValidationInfo) :
    (info.signatureStatus = P.signature.SignatureValid →
      PopplerSignatureInfo.signatureStatus P (PopplerSignatureInfo.ctor info) = Okular.SignatureStatus.SignatureValid) ∧
    (info.signatureStatus = P.signature.SignatureInvalid →
      PopplerSignatureInfo.signatureStatus P (PopplerSignatureInfo.ctor info) = Okular.SignatureStatus.SignatureInvalid) ∧
    (info.signatureStatus = P.signature.SignatureDigestMismatch →
      PopplerSignatureInfo.signatureStatus P (PopplerSignatureInfo.ctor info) = Okular.SignatureStatus.SignatureDigestMismatch) ∧
    (info.signatureStatus = P.signature.SignatureDecodingError →
      PopplerSignatureInfo.signatureStatus P (PopplerSignatureInfo.ctor info) = Okular.SignatureStatus.SignatureDecodingError) ∧
    (info.signatureStatus = P.signature.SignatureGenericError →
      PopplerSignatureInfo.signatureStatus P (PopplerSignatureInfo.ctor info) = Okular.SignatureStatus.SignatureGenericError) ∧
    (info.signatureStatus = P.signature.SignatureNotFound →
      PopplerSignatureInfo.signatureStatus P (PopplerSignatureInfo.ctor info) = Okular.SignatureStatus.SignatureNotFound) ∧
    (info.signatureStatus = P.signature.SignatureNotVerified →
      PopplerSignatureInfo.signatureStatus P (PopplerSignatureInfo.ctor info) = Okular.SignatureStatus.SignatureNotVerified) ∧
    (info.signatureStatus ∉ P.signature.labels →
      PopplerSignatureInfo.signatureStatus P (PopplerSignatureInfo.ctor info) = Okular.SignatureStatus.SignatureStatusUnknown) ∧
    (PopplerSignatureInfo.signatureStatus P (PopplerSignatureInfo.ctor info) = Okular.SignatureStatus.SignatureValid ↔
      info.signatureStatus = P.signature.SignatureValid) := by
  have h := hP.1
  simp only [Poppler.SignatureStatusValues.labels, List.nodup_cons, List.mem_cons,
    List.mem_singleton, not_or, List.not_mem_nil, not_false_eq_true, List.nodup_nil,
    and_true] at h
  obtain ⟨⟨h12, h13, h14, h15, h16, h17⟩, ⟨h23, h24, h25, h26, h27⟩, ⟨h34, h35, h36, h37⟩,
    ⟨h45, h46, h47⟩, ⟨h56, h57⟩, h67⟩ := h
  simp only [PopplerSignatureInfo.signatureStatus, PopplerSignatureInfo.ctor,
    Poppler.SignatureStatusValues.labels, List.mem_cons, List.mem_singleton, not_or,
    List.not_mem_nil, or_false]
  refine ⟨?_, ?_, ?_, ?_, ?_, ?_, ?_, ?_, ?_⟩
  · intro e; simp [e]
  · intro e; simp [e, Ne.symm h12]
  · intro e; simp [e, Ne.symm h13, Ne.symm h23]
  · intro e; simp [e, Ne.symm h14, Ne.symm h24, Ne.symm h34]
  · intro e; simp [e, Ne.symm h15, Ne.symm h25, Ne.symm h35, Ne.symm h45]
  · intro e; simp [e, Ne.symm h16, Ne.symm h26, Ne.symm h36, Ne.symm h46, Ne.symm h56]
  · intro e
    simp [e, Ne.symm h17, Ne.symm h27, Ne.symm h37, Ne.symm h47, Ne.symm h57, Ne.symm h67]
  · rintro ⟨e1, e2, e3, e4, e5, e6, e7⟩; simp [e1, e2, e3, e4, e5, e6, e7]
  · constructor
    · intro e
      by_contra hne
      rw [if_neg hne] at e
      split_ifs at e
    · intro e; simp [e]

/-- Witness of C7 on the enumerator values of poppler-qt5: a validation info that
reports `SignatureValid`. -/
theorem PopplerSignatureInfo.signatureStatus_same_name_witness :
    Poppler.qt5.wellFormed ∧
    PopplerSignatureInfo.signatureStatus Poppler.qt5
      (PopplerSignatureInfo.ctor ⟨0, 3, "CN", "DN", 4, 1500000000, [], [0, 10, 20, 30], true⟩)
      = Okular.SignatureStatus.SignatureValid :=
  ⟨by decide,
   (PopplerSignatureInfo.signatureStatus_same_name Poppler.qt5 (by decide)
      ⟨0, 3, "CN", "DN", 4, 1500000000, [], [0, 10, 20, 30], true⟩).1 rfl⟩

/-- C8. For a `PopplerSignatureInfo` constructed from a Poppler validation info,
`certificateStatus()` returns the Okular status of the same name for each of the seven
Poppler statuses, returns `CertificateStatusUnknown` for every other stored value, and
returns `CertificateTrusted` if and only if Poppler reported `CertificateTrusted`. -/
theorem PopplerSignatureInfo.certificateStatus_same_name (P : Poppler.Enumerators)
    (hP : P.wellFormed) (info : Poppler.SignatureValidationInfo) :
    (info.certificateStatus = P.certificate.CertificateTrusted →
      PopplerSignatureInfo.certificateStatus P (PopplerSignatureInfo.ctor info) = Okular.CertificateStatus.CertificateTrusted) ∧
    (info.certificateStatus = P.certificate.CertificateUntrustedIssuer →
      PopplerSignatureInfo.certificateStatus P (PopplerSignatureInfo.ctor info) = Okular.CertificateStatus.CertificateUntrustedIssuer) ∧
    (info.certificateStatus = P.certificate.CertificateUnknownIssuer →
      PopplerSignatureInfo.certificateStatus P (PopplerSignatureInfo.ctor info) = Okular.CertificateStatus.CertificateUnknownIssuer) ∧
    (info.certificateStatus = P.certificate.CertificateRevoked →
      PopplerSignatureInfo.certificateStatus P (PopplerSignatureInfo.ctor info) = Okular.CertificateStatus.CertificateRevoked) ∧
    (info.certificateStatus = P.certificate.CertificateExpired →
      PopplerSignatureInfo.certificateStatus P (PopplerSignatureInfo.ctor info) = Okular.CertificateStatus.CertificateExpired) ∧
    (info.certificateStatus = P.certificate.CertificateGenericError →
      PopplerSignatureInfo.certificateStatus P (PopplerSignatureInfo.ctor info) = Okular.CertificateStatus.CertificateGenericError) ∧
    (info.certificateStatus = P.certificate.CertificateNotVerified →
      PopplerSignatureInfo.certificateStatus P (PopplerSignatureInfo.ctor info) = Okular.CertificateStatus.CertificateNotVerified) ∧
    (info.certificateStatus ∉ P.certificate.labels →
      PopplerSignatureInfo.certificateStatus P (PopplerSignatureInfo.ctor info) = Okular.CertificateStatus.CertificateStatusUnknown) ∧
    (PopplerSignatureInfo.certificateStatus P (PopplerSignatureInfo.ctor info) = Okular.CertificateStatus.CertificateTrusted ↔
      info.certificateStatus = P.certificate.CertificateTrusted) := by
  have h := hP.2.1
  simp only [Poppler.CertificateStatusValues.labels, List.nodup_cons, List.mem_cons,
    List.mem_singleton, not_or, List.not_mem_nil, not_false_eq_true, List.nodup_nil,
    and_true] at h
  obtain ⟨⟨h12, h13, h14, h15, h16, h17⟩, ⟨h23, h24, h25, h26, h27⟩, ⟨h34, h35, h36, h37⟩,
    ⟨h45, h46, h47⟩, ⟨h56, h57⟩, h67⟩ := h
  simp only [PopplerSignatureInfo.certificateStatus, PopplerSignatureInfo.ctor,
    Poppler.CertificateStatusValues.labels, List.mem_cons, List.mem_singleton, not_or,
    List.not_mem_nil, or_false]
  refine ⟨?_, ?_, ?_, ?_, ?_, ?_, ?_, ?_, ?_⟩
  · intro e; simp [e]
  · intro e; simp [e, Ne.symm h12]
  · intro e; simp [e, Ne.symm h13, Ne.symm h23]
  · intro e; simp [e, Ne.symm h14, Ne.symm h24, Ne.symm h34]
  · intro e; simp [e, Ne.symm h15, Ne.symm h25, Ne.symm h35, Ne.symm h45]
  · intro e; simp [e, Ne.symm h16, Ne.symm h26, Ne.symm h36, Ne.symm h46, Ne.symm h56]
  · intro e
    simp [e, Ne.symm h17, Ne.symm h27, Ne.symm h37, Ne.symm h47, Ne.symm h57, Ne.symm h67]
  · rintro ⟨e1, e2, e3, e4, e5, e6, e7⟩; simp [e1, e2, e3, e4, e5, e6, e7]
  · constructor
    · intro e
      by_contra hne
      rw [if_neg hne] at e
      split_ifs at e
    · intro e; simp [e]

/-- Witness of C8 on the enumerator values of poppler-qt5: a validation info that
reports `CertificateRevoked`. -/
theorem PopplerSignatureInfo.certificateStatus_same_name_witness :
    Poppler.qt5.wellFormed ∧
    PopplerSignatureInfo.certificateStatus Poppler.qt5
      (PopplerSignatureInfo.ctor ⟨0, 3, "CN", "DN", 4, 1500000000, [], [0, 10, 20, 30], true⟩)
      = Okular.CertificateStatus.CertificateRevoked :=
  ⟨by decide,
   (PopplerSignatureInfo.certificateStatus_same_name Poppler.qt5 (by decide)
      ⟨0, 3, "CN", "DN", 4, 1500000000, [], [0, 10, 20, 30], true⟩).2.2.2.1 rfl⟩

/-- C9. For a `PopplerSignatureInfo` constructed from a Poppler validation info,
`hashAlgorithm()` returns the Okular algorithm of the same name for each of the Poppler
values Md2, Md5, Sha1, Sha256, Sha384, Sha512 and Sha224, returns
`HashAlgorithmUnknown` for every other stored value, and is injective on the seven
known algorithms. -/
theorem PopplerSignatureInfo.hashAlgorithm_same_name (P : Poppler.Enumerators)
    (hP : P.wellFormed) (info : Poppler.SignatureValidationInfo) :
    (info.hashAlgorithm = P.hash.HashAlgorithmMd2 →
      PopplerSignatureInfo.hashAlgorithm P (PopplerSignatureInfo.ctor info) = Okular.HashAlgorithm.HashAlgorithmMd2) ∧
    (info.hashAlgorithm = P.hash.HashAlgorithmMd5 →
      PopplerSignatureInfo.hashAlgorithm P (PopplerSignatureInfo.ctor info) = Okular.HashAlgorithm.HashAlgorithmMd5) ∧
    (info.hashAlgorithm = P.hash.HashAlgorithmSha1 →
      PopplerSignatureInfo.hashAlgorithm P (PopplerSignatureInfo.ctor info) = Okular.HashAlgorithm.HashAlgorithmSha1) ∧
    (info.hashAlgorithm = P.hash.HashAlgorithmSha256 →
      PopplerSignatureInfo.hashAlgorithm P (PopplerSignatureInfo.ctor info) = Okular.HashAlgorithm.HashAlgorithmSha256) ∧
    (info.hashAlgorithm = P.hash.HashAlgorithmSha384 →
      PopplerSignatureInfo.hashAlgorithm P (PopplerSignatureInfo.ctor info) = Okular.HashAlgorithm.HashAlgorithmSha384) ∧
    (info.hashAlgorithm = P.hash.HashAlgorithmSha512 →
      PopplerSignatureInfo.hashAlgorithm P (PopplerSignatureInfo.ctor info) = Okular.HashAlgorithm.HashAlgorithmSha512) ∧
    (info.hashAlgorithm = P.hash.HashAlgorithmSha224 →
      PopplerSignatureInfo.hashAlgorithm P (PopplerSignatureInfo.ctor info) = Okular.HashAlgorithm.HashAlgorithmSha224) ∧
    (info.hashAlgorithm ∉ P.hash.labels →
      PopplerSignatureInfo.hashAlgorithm P (PopplerSignatureInfo.ctor info) = Okular.HashAlgorithm.HashAlgorithmUnknown) ∧
    (∀ other : Poppler.SignatureValidationInfo,
      info.hashAlgorithm ∈ P.hash.labels → other.hashAlgorithm ∈ P.hash.labels →
      PopplerSignatureInfo.hashAlgorithm P (PopplerSignatureInfo.ctor info)
        = PopplerSignatureInfo.hashAlgorithm P (PopplerSignatureInfo.ctor other) →
      info.hashAlgorithm = other.hashAlgorithm) := by
  have h := hP.2.2
  simp only [Poppler.HashAlgorithmValues.labels, List.nodup_cons, List.mem_cons,
    List.mem_singleton, not_or, List.not_mem_nil, not_false_eq_true, List.nodup_nil,
    and_true] at h
  obtain ⟨⟨h12, h13, h14, h15, h16, h17⟩, ⟨h23, h24, h25, h26, h27⟩, ⟨h34, h35, h36, h37⟩,
    ⟨h45, h46, h47⟩, ⟨h56, h57⟩, h67⟩ := h
  simp only [PopplerSignatureInfo.hashAlgorithm, PopplerSignatureInfo.ctor,
    Poppler.HashAlgorithmValues.labels, List.mem_cons, List.mem_singleton, not_or,
    List.not_mem_nil, or_false]
  refine ⟨?_, ?_, ?_, ?_, ?_, ?_, ?_, ?_, ?_⟩
  · intro e; simp [e]
  · intro e; simp [e, Ne.symm h12]
  · intro e; simp [e, Ne.symm h13, Ne.symm h23]
  · intro e; simp [e, Ne.symm h14, Ne.symm h24, Ne.symm h34]
  · intro e; simp [e, Ne.symm h15, Ne.symm h25, Ne.symm h35, Ne.symm h45]
  · intro e; simp [e, Ne.symm h16, Ne.symm h26, Ne.symm h36, Ne.symm h46, Ne.symm h56]
  · intro e
    simp [e, Ne.symm h17, Ne.symm h27, Ne.symm h37, Ne.symm h47, Ne.symm h57, Ne.symm h67]
  · rintro ⟨e1, e2, e3, e4, e5, e6, e7⟩; simp [e1, e2, e3, e4, e5, e6, e7]
  · intro other m1 m2
    rcases m1 with e | e | e | e | e | e | e <;> rcases m2 with f | f | f | f | f | f | f <;>
      simp [e, f, h12, h13, h14, h15, h16, h17, h23, h24, h25, h26, h27, h34, h35, h36, h37,
        h45, h46, h47, h56, h57, h67, Ne.symm h12, Ne.symm h13, Ne.symm h14, Ne.symm h15,
        Ne.symm h16, Ne.symm h17, Ne.symm h23, Ne.symm h24, Ne.symm h25, Ne.symm h26,
        Ne.symm h27, Ne.symm h34, Ne.symm h35, Ne.symm h36, Ne.symm h37, Ne.symm h45,
        Ne.symm h46, Ne.symm h47, Ne.symm h56, Ne.symm h57, Ne.symm h67]

/-- Witness of C9 on the enumerator values of poppler-qt5: a validation info that
reports `HashAlgorithmSha256`. -/
theorem PopplerSignatureInfo.hashAlgorithm_same_name_witness :
    Poppler.qt5.wellFormed ∧
    PopplerSignatureInfo.hashAlgorithm Poppler.qt5
      (PopplerSignatureInfo.ctor ⟨0, 3, "CN", "DN", 4, 1500000000, [], [0, 10, 20, 30], true⟩)
      = Okular.HashAlgorithm.HashAlgorithmSha256 :=
  ⟨by decide,
   (PopplerSignatureInfo.hashAlgorithm_same_name Poppler.qt5 (by decide)
      ⟨0, 3, "CN", "DN", 4, 1500000000, [], [0, 10, 20, 30], true⟩).2.2.2.1 rfl⟩

/-- C10. A `SignatureInfo` that overrides nothing reports no positive verification
result: the signature status, certificate status and hash algorithm are the unknown
ones, `subjectCN`, `subjectDN`, `signature` and `signedRangeBounds` are empty,
`signingTime` is the null date-time and `signsTotalDocument` is false. -/
theorem Okular.SignatureInfo.overridingNothing_reports_nothing :
    Okular.SignatureInfo.overridingNothing.signatureStatus
      = Okular.SignatureStatus.SignatureStatusUnknown ∧
    Okular.SignatureInfo.overridingNothing.certificateStatus
      = Okular.CertificateStatus.CertificateStatusUnknown ∧
    Okular.SignatureInfo.overridingNothing.hashAlgorithm
      = Okular.HashAlgorithm.HashAlgorithmUnknown ∧
    Okular.SignatureInfo.overridingNothing.subjectCN = "" ∧
    Okular.SignatureInfo.overridingNothing.subjectDN = "" ∧
    Okular.SignatureInfo.overridingNothing.signature = [] ∧
    Okular.SignatureInfo.overridingNothing.signedRangeBounds = [] ∧
    Okular.SignatureInfo.overridingNothing.signingTime = none ∧
    Okular.SignatureInfo.overridingNothing.signsTotalDocument = false :=
  ⟨rfl, rfl, rfl, rfl, rfl, rfl, rfl, rfl, rfl⟩

/-! ## Theorems: text document generator -/

namespace Okular

namespace TextDocumentGenerator

open TextDocumentGeneratorPrivate

/-- Adding annotations to a page keeps its number. -/
theorem number_after_annotations (annotations : List Annotation) (page : Page) :
    (annotations.foldl Page.addAnnotation page).number = page.number := by
  induction annotations generalizing page with
  | nil => rfl
  | cons a rest ih => simp only [List.foldl_cons]; rw [ih]; rfl

/-- One iteration of the last loop of `loadDocument`. -/
theorem loadPage_eq (size : QSize) (objects : List (List ObjectRect))
    (annots : List (List Annotation)) (acc : List Page × List (Option Nat)) (i : Nat) :
    ∃ page : Page, page.number = i ∧
      loadPage size objects annots acc i = (acc.1 ++ [page], acc.2.set i (some acc.1.length)) := by
  refine ⟨_, ?_, rfl⟩
  rw [number_after_annotations]
  split <;> rfl

/-- The last loop of `loadDocument` after `k` iterations: `k` pages have been
allocated behind the existing ones, which are untouched, and entry `i < k` of the
vector is the address of a page whose number is `i`. -/
theorem loadPages_spec (size : QSize) (objects : List (List ObjectRect))
    (annots : List (List Annotation)) (heap : List Page) (pv : List (Option Nat)) (k : Nat)
    (hk : k ≤ pv.length) :
    ((List.range k).foldl (loadPage size objects annots) (heap, pv)).1.length = heap.length + k ∧
    ((List.range k).foldl (loadPage size objects annots) (heap, pv)).2.length = pv.length ∧
    (∀ a, a < heap.length →
      ((List.range k).foldl (loadPage size objects annots) (heap, pv)).1[a]? = heap[a]?) ∧
    ∀ i, i < k →
      ((List.range k).foldl (loadPage size objects annots) (heap, pv)).2[i]?
        = some (some (heap.length + i)) ∧
      ∃ page : Page,
        ((List.range k).foldl (loadPage size objects annots) (heap, pv)).1[heap.length + i]?
          = some page ∧ page.number = i := by
  induction k with
  | zero => simp
  | succ k ih =>
    obtain ⟨h1, h2, h3, h4⟩ := ih (Nat.le_of_succ_le hk)
    rw [List.range_succ, List.foldl_append, List.foldl_cons, List.foldl_nil]
    obtain ⟨page, hnum, heq⟩ := loadPage_eq size objects annots
      ((List.range k).foldl (loadPage size objects annots) (heap, pv)) k
    rw [heq]
    refine ⟨?_, ?_, ?_, ?_⟩
    · simp [h1]; omega
    · simp [h2]
    · intro a ha
      rw [List.getElem?_append_left (by omega)]
      exact h3 a ha
    · intro i hi
      rcases Nat.lt_succ_iff_lt_or_eq.mp hi with hlt | rfl
      · obtain ⟨e1, page', e2, e3⟩ := h4 i hlt
        refine ⟨?_, page', ?_, e3⟩
        · rw [List.getElem?_set_ne (by omega)]; exact e1
        · rw [List.getElem?_append_left (by omega)]; exact e2
      · refine ⟨?_, page, ?_, hnum⟩
        · rw [h1, List.getElem?_set_self (by omega)]
        · rw [← h1]; exact List.getElem?_concat_length _ _

/-- The length of a resized vector. -/
theorem QVector.length_resize {α : Type} (v : List α) (size : Nat) (dflt : α) :
    (QVector.resize v size dflt).length = size := by
  simp [QVector.resize]; omega

/-- What `loadDocument` returns when the converter returns a document and the call
completes: true, the output page vector has exactly `pageCount()` entries and, for
every `i` below `pageCount()`, entry `i` is the address of a page whose number is `i`. -/
theorem loadDocument_pages_numbered (env : Env) (mConverter : TextDocumentConverter)
    (fileName : QString) (d : TextDocumentGeneratorPrivate) (w : World)
    (pagesVector : List (Option Nat)) (doc : QTextDocument) (r : Loaded)
    (hconv : (mConverter.convert fileName).2 = some doc)
    (hret : loadDocument env mConverter fileName d w pagesVector = some r) :
    r.result = true ∧ r.pagesVector.length = doc.pageCount ∧
    ∀ i, i < doc.pageCount →
      ∃ (address : Nat) (page : Page),
        r.pagesVector[i]? = some (some address) ∧ r.world.pages[address]? = some page ∧
        page.number = i := by
  simp only [loadDocument, hconv, Option.bind_eq_bind, Option.bind_eq_some] at hret
  obtain ⟨d1, -, d2, -, d3, -, objects, -, annots, -, hr⟩ := hret
  have hr := (Option.some.inj hr).symm
  subst hr
  obtain ⟨-, h2, -, h4⟩ := loadPages_spec doc.pageSize objects annots w.pages
    (QVector.resize pagesVector doc.pageCount none) doc.pageCount
    (le_of_eq (QVector.length_resize pagesVector doc.pageCount none).symm)
  refine ⟨rfl, ?_, ?_⟩
  · rw [h2]; exact QVector.length_resize _ _ _
  · intro i hi
    obtain ⟨e1, page, e2, e3⟩ := h4 i hi
    exact ⟨w.pages.length + i, page, e1, e2, e3⟩

/-- Popping `n` levels completes when the stack holds at least `n` nodes, and leaves
the others. -/
theorem popLevels_some (n : Nat) (parentNode : QDomNode) (stack : List QDomNode)
    (h : n ≤ stack.length) :
    ∃ popped, popLevels n (parentNode, stack) = some popped ∧
      popped.2.length = stack.length - n := by
  induction n generalizing parentNode stack with
  | zero => exact ⟨_, rfl, rfl⟩
  | succ n ih =>
    cases stack with
    | nil => simp at h
    | cons top rest =>
      obtain ⟨popped, h1, h2⟩ := ih top rest (by simpa using h)
      exact ⟨popped, by simpa [popLevels] using h1, by simpa using h2⟩

/-- The second loop of `generateTitleInfos` completes on title levels that nest. -/
theorem foldlM_titleStep_some (env : Env) (doc : QTextDocument) (positions : List TitlePosition)
    (st : TitleLoop)
    (h : titleLevelsNest st.level st.parentNodeStack.length (positions.map TitlePosition.level)
      = true) :
    ∃ st', positions.foldlM (titleStep env doc) st = some st' := by
  induction positions generalizing st with
  | nil => exact ⟨st, rfl⟩
  | cons position rest ih =>
    simp only [List.map_cons, titleLevelsNest] at h
    simp only [List.foldlM_cons, titleStep, Option.bind_eq_bind]
    by_cases h1 : position.level = st.level
    · rw [if_pos h1] at h
      rw [if_pos h1]
      exact ih _ h
    · rw [if_neg h1] at h
      rw [if_neg h1]
      by_cases h2 : position.level > st.level
      · rw [if_pos h2] at h
        rw [if_pos h2]
        exact ih _ h
      · rw [if_neg h2] at h
        rw [if_neg h2]
        simp only [Bool.and_eq_true, decide_eq_true_eq] at h
        obtain ⟨popped, e1, e2⟩ := popLevels_some _ st.parentNode st.parentNodeStack h.1
        rw [e1]
        refine ih _ ?_
        simpa [e2] using h.2

/-- Appending at an index in range completes and keeps the length of the vector. -/
theorem appendAt_some {α : Type} (v : List (List α)) (i : Int) (x : α) (h0 : 0 ≤ i)
    (h1 : i < v.length) :
    ∃ v', QVector.appendAt v i x = some v' ∧ v'.length = v.length := by
  have h2 : i.toNat < v.length := by omega
  refine ⟨_, by rw [QVector.appendAt, if_pos ⟨h0, h2⟩], by simp⟩

/-- A loop of `v[ page ].append( x )` statements completes when all pages are in
range. -/
theorem foldlM_appendAt_some {α β : Type} (page : β → Int) (item : β → α) (infos : List β)
    (v : List (List α)) (n : Nat) (hv : v.length = n)
    (h : ∀ info ∈ infos, 0 ≤ page info ∧ page info < n) :
    ∃ v', infos.foldlM (fun acc info => QVector.appendAt acc (page info) (item info)) v
      = some v' := by
  induction infos generalizing v with
  | nil => exact ⟨v, rfl⟩
  | cons info rest ih =>
    obtain ⟨h0, h1⟩ := h info (List.mem_cons_self _ _)
    obtain ⟨v1, e1, e2⟩ := appendAt_some v (page info) (item info) h0 (by omega)
    simp only [List.foldlM_cons, Option.bind_eq_bind, e1, Option.some_bind]
    exact ih v1 (by omega) (fun b hb => h b (List.mem_cons_of_mem _ hb))

/-- The link infos generated for a document lie on its pages when the bounding
rectangle helper reports a page of the document for each link position. -/
theorem foldl_linkInfoStep_pages (env : Env) (doc : QTextDocument) (n : Nat)
    (positions : List LinkPosition)
    (hrect : ∀ position ∈ positions,
      (env.calculateBoundingRect doc position.startPosition position.endPosition).2 < n)
    (infos : List LinkInfo)
    (h : ∀ info ∈ infos, 0 ≤ info.page ∧ info.page < n) :
    ∀ info ∈ positions.foldl (linkInfoStep env doc) infos, 0 ≤ info.page ∧ info.page < n := by
  induction positions generalizing infos with
  | nil => exact h
  | cons position rest ih =>
    simp only [List.foldl_cons]
    apply ih (fun other hother => hrect other (List.mem_cons_of_mem _ hother))
    intro info hinfo
    simp only [linkInfoStep] at hinfo
    by_cases hge : (env.calculateBoundingRect doc position.startPosition
        position.endPosition).2 ≥ 0
    · rw [if_pos hge] at hinfo
      rcases List.mem_append.mp hinfo with hm | hm
      · exact h info hm
      · rw [List.mem_singleton] at hm
        subst hm
        exact ⟨hge, hrect position (List.mem_cons_self _ _)⟩
    · rw [if_neg hge] at hinfo
      exact h info hinfo

/-- The annotation infos generated for a document lie on its pages when the bounding
rectangle helper reports a page of the document for each annotation position. -/
theorem foldl_annotationInfoStep_pages (env : Env) (doc : QTextDocument) (n : Nat)
    (positions : List AnnotationPosition)
    (hrect : ∀ position ∈ positions,
      (env.calculateBoundingRect doc position.startPosition position.endPosition).2 < n)
    (infos : List AnnotationInfo)
    (h : ∀ info ∈ infos, 0 ≤ info.page ∧ info.page < n) :
    ∀ info ∈ positions.foldl (annotationInfoStep env doc) infos,
      0 ≤ info.page ∧ info.page < n := by
  induction positions generalizing infos with
  | nil => exact h
  | cons position rest ih =>
    simp only [List.foldl_cons]
    apply ih (fun other hother => hrect other (List.mem_cons_of_mem _ hother))
    intro info hinfo
    simp only [annotationInfoStep] at hinfo
    by_cases hge : (env.calculateBoundingRect doc position.startPosition
        position.endPosition).2 ≥ 0
    · rw [if_pos hge] at hinfo
      rcases List.mem_append.mp hinfo with hm | hm
      · exact h info hm
      · rw [List.mem_singleton] at hm
        subst hm
        exact ⟨hge, hrect position (List.mem_cons_self _ _)⟩
    · rw [if_neg hge] at hinfo
      exact h info hinfo

/-- The slots connected to the converter leave the link and annotation infos alone. -/
theorem foldl_receive_infos (env : Env) (signals : List ConverterSignal)
    (d : TextDocumentGeneratorPrivate) :
    (signals.foldl (receive env) d).mLinkInfos = d.mLinkInfos ∧
    (signals.foldl (receive env) d).mAnnotationInfos = d.mAnnotationInfos := by
  induction signals generalizing d with
  | nil => exact ⟨rfl, rfl⟩
  | cons signal rest ih =>
    simp only [List.foldl_cons]
    obtain ⟨h1, h2⟩ := ih (receive env d signal)
    rw [h1, h2]
    cases signal with
    | addAction action b e => cases action <;> exact ⟨rfl, rfl⟩
    | addAnnotation pointer b e => cases pointer <;> exact ⟨rfl, rfl⟩
    | addTitle level title block => exact ⟨rfl, rfl⟩
    | addMetaData key value title => exact ⟨rfl, rfl⟩
    | addMetaDataKey key value => exact ⟨rfl, rfl⟩
    | error message duration => exact ⟨rfl, rfl⟩
    | warning message duration => exact ⟨rfl, rfl⟩
    | notice message duration => exact ⟨rfl, rfl⟩

/-- The call `loadDocument` completes and returns true when the converter returns a
document, the levels of the gathered titles nest, the infos kept from before lie on
pages of the document, and the bounding rectangle helper reports a page of the
document for each gathered link and annotation position. -/
theorem loadDocument_completes (env : Env) (mConverter : TextDocumentConverter)
    (fileName : QString) (d : TextDocumentGeneratorPrivate) (w : World)
    (pagesVector : List (Option Nat)) (doc : QTextDocument)
    (hconv : (mConverter.convert fileName).2 = some doc)
    (htitles : titleLevelsNest
      (((mConverter.convert fileName).1.foldl (receive env) d).mTitlePositions.foldl
        (fun level position => min level position.level) 1000) 0
      (((mConverter.convert fileName).1.foldl (receive env) d).mTitlePositions.map
        TitlePosition.level) = true)
    (hlinks : ∀ info ∈ d.mLinkInfos, 0 ≤ info.page ∧ info.page < doc.pageCount)
    (hannotations : ∀ info ∈ d.mAnnotationInfos, 0 ≤ info.page ∧ info.page < doc.pageCount)
    (hlinkPages : ∀ position ∈
      ((mConverter.convert fileName).1.foldl (receive env) d).mLinkPositions,
      (env.calculateBoundingRect doc position.startPosition position.endPosition).2
        < doc.pageCount)
    (hannotationPages : ∀ position ∈
      ((mConverter.convert fileName).1.foldl (receive env) d).mAnnotationPositions,
      (env.calculateBoundingRect doc position.startPosition position.endPosition).2
        < doc.pageCount) :
    ∃ r : Loaded, loadDocument env mConverter fileName d w pagesVector = some r ∧
      r.result = true := by
  obtain ⟨hl, ha⟩ := foldl_receive_infos env (mConverter.convert fileName).1 d
  obtain ⟨st, hst⟩ := foldlM_titleStep_some env doc
    ((mConverter.convert fileName).1.foldl (receive env) d).mTitlePositions
    ⟨((mConverter.convert fileName).1.foldl (receive env) d).mDocumentSynopsis,
      QDomNode.document, [],
      ((mConverter.convert fileName).1.foldl (receive env) d).mTitlePositions.foldl
        (fun level position => min level position.level) 1000⟩ htitles
  obtain ⟨objects, hobjects⟩ := foldlM_appendAt_some LinkInfo.page
    (fun info : LinkInfo => (⟨info.boundingRect.left, info.boundingRect.top,
      info.boundingRect.right, info.boundingRect.bottom, false, ObjectRect.ObjectType.Action,
      info.link⟩ : ObjectRect))
    (((mConverter.convert fileName).1.foldl (receive env) d).mLinkPositions.foldl
      (linkInfoStep env doc) d.mLinkInfos)
    (List.replicate doc.pageCount []) doc.pageCount (by simp)
    (foldl_linkInfoStep_pages env doc doc.pageCount _ hlinkPages _ hlinks)
  obtain ⟨annots, hannots⟩ := foldlM_appendAt_some AnnotationInfo.page
    AnnotationInfo.annotation
    ((((mConverter.convert fileName).1.foldl (receive env) d).mAnnotationPositions.foldl
      (annotationInfoStep env doc) d.mAnnotationInfos).map (fun info =>
        { info with annotation := info.annotation.setBoundingRectangle
                      (annotationRectangle doc.pageSize info.page) }))
    (List.replicate doc.pageCount []) doc.pageCount (by simp)
    (by
      intro info hinfo
      obtain ⟨info0, hmem, rfl⟩ := List.mem_map.mp hinfo
      exact foldl_annotationInfoStep_pages env doc doc.pageCount _ hannotationPages _
        hannotations info0 hmem)
  simp only [loadDocument, hconv, generateTitleInfos, generateLinkInfos, generateAnnotationInfos,
    hst, hl, ha, Option.map_some', Option.bind_eq_bind, Option.some_bind, hobjects, hannots]
  exact ⟨_, rfl, rfl⟩

/-- On every load whose converter returns a document, whose gathered title levels
nest and whose link and annotation infos lie on pages of the document, `loadDocument`
completes and returns true, the output page vector has exactly `pageCount()` entries
and, for every `i` below `pageCount()`, entry `i` is the address of a page whose
number is `i`. -/
theorem loadDocument_returns_numbered_pages (env : Env) (mConverter : TextDocumentConverter)
    (fileName : QString) (d : TextDocumentGeneratorPrivate) (w : World)
    (pagesVector : List (Option Nat)) (doc : QTextDocument)
    (hconv : (mConverter.convert fileName).2 = some doc)
    (htitles : titleLevelsNest
      (((mConverter.convert fileName).1.foldl (receive env) d).mTitlePositions.foldl
        (fun level position => min level position.level) 1000) 0
      (((mConverter.convert fileName).1.foldl (receive env) d).mTitlePositions.map
        TitlePosition.level) = true)
    (hlinks : ∀ info ∈ d.mLinkInfos, 0 ≤ info.page ∧ info.page < doc.pageCount)
    (hannotations : ∀ info ∈ d.mAnnotationInfos, 0 ≤ info.page ∧ info.page < doc.pageCount)
    (hlinkPages : ∀ position ∈
      ((mConverter.convert fileName).1.foldl (receive env) d).mLinkPositions,
      (env.calculateBoundingRect doc position.startPosition position.endPosition).2
        < doc.pageCount)
    (hannotationPages : ∀ position ∈
      ((mConverter.convert fileName).1.foldl (receive env) d).mAnnotationPositions,
      (env.calculateBoundingRect doc position.startPosition position.endPosition).2
        < doc.pageCount) :
    ∃ r : Loaded, loadDocument env mConverter fileName d w pagesVector = some r ∧
      r.result = true ∧ r.pagesVector.length = doc.pageCount ∧
      ∀ i, i < doc.pageCount →
        ∃ (address : Nat) (page : Page),
          r.pagesVector[i]? = some (some address) ∧ r.world.pages[address]? = some page ∧
          page.number = i := by
  obtain ⟨r, hr, -⟩ := loadDocument_completes env mConverter fileName d w pagesVector doc hconv
    htitles hlinks hannotations hlinkPages hannotationPages
  exact ⟨r, hr, loadDocument_pages_numbered env mConverter fileName d w pagesVector doc r hconv hr⟩

/-- C1 (evaluation at the failing input). A fresh generator loads a text with a
heading of level 1, a heading of level 3 and another heading of level 1: the converter
emits the three titles and returns a document of two pages. In `generateTitleInfos`
the second title pushes one node and raises `level` to 3, so the third title runs
`parentNodeStack.pop()` twice on a stack of one node; the second `pop` is on an empty
`QStack`. The call of `loadDocument` has no result: no page vector of two numbered
pages is produced, although the converter returned a document. -/
theorem loadDocument_skipped_title_level :
    (Sample.skippingConverter.convert "notes.txt").2 = some Sample.document ∧
    Sample.document.pageCount = 2 ∧
    (∃ st : TitleLoop,
      [(⟨1, "One", 0⟩ : TitlePosition), ⟨3, "Detail", 1⟩].foldlM
        (titleStep Sample.env Sample.document)
        ⟨DocumentSynopsis.ctor, QDomNode.document, [], 1⟩ = some st ∧
      st.level = 3 ∧ st.parentNodeStack = [QDomNode.document] ∧
      popLevels 1 (st.parentNode, st.parentNodeStack) = some (QDomNode.document, []) ∧
      popLevels 2 (st.parentNode, st.parentNodeStack) = none ∧
      titleStep Sample.env Sample.document st ⟨1, "Two", 2⟩ = none) ∧
    generateTitleInfos Sample.env
      { ctor with
        mDocument := some Sample.document
        mTitlePositions := [⟨1, "One", 0⟩, ⟨3, "Detail", 1⟩, ⟨1, "Two", 2⟩] } = none ∧
    loadDocument Sample.env Sample.skippingConverter "notes.txt" ctor Sample.world [] = none :=
  ⟨rfl, rfl, ⟨_, rfl, rfl, rfl, rfl, rfl, by decide⟩, by decide, by decide⟩

/-- Example of `loadDocument_returns_numbered_pages`: the sample converter on
"notes.txt" emits one title and one link on the second page and returns a two-page
document, so the load completes with two numbered pages. -/
theorem loadDocument_returns_numbered_pages_example :
    ∃ r : Loaded,
      loadDocument Sample.env Sample.converter "notes.txt" ctor Sample.world [some 7, none, none]
        = some r ∧
      r.result = true ∧ r.pagesVector.length = Sample.document.pageCount ∧
      ∀ i, i < Sample.document.pageCount →
        ∃ (address : Nat) (page : Page),
          r.pagesVector[i]? = some (some address) ∧ r.world.pages[address]? = some page ∧
          page.number = i :=
  loadDocument_returns_numbered_pages Sample.env Sample.converter "notes.txt" ctor Sample.world
    [some 7, none, none] Sample.document rfl (by decide) (by decide) (by decide) (by decide)
    (by decide)

/-- C2. If the converter fails (`convert` returns a null document),
`TextDocumentGenerator::loadDocument` returns false and leaves the caller's page
vector exactly as it was passed in; no page is created (the world, with its pages,
is the one before the call). -/
theorem loadDocument_failure_keeps_pagesVector (env : Env) (mConverter : TextDocumentConverter)
    (fileName : QString) (d : TextDocumentGeneratorPrivate) (w : World)
    (pagesVector : List (Option Nat))
    (hconv : (mConverter.convert fileName).2 = none) :
    ∃ r : Loaded, loadDocument env mConverter fileName d w pagesVector = some r ∧
      r.result = false ∧ r.pagesVector = pagesVector ∧ r.world = w := by
  simp only [loadDocument, hconv]
  exact ⟨_, rfl, rfl, rfl, rfl⟩

/-- C4. For every export format that is not one of the formats returned by
`exportFormats()`, the mime type is neither application/pdf nor text/plain, and
`TextDocumentGenerator::exportTo` returns false and opens or writes no file (the world
is unchanged), whether or not a document is loaded. -/
theorem exportTo_unsupported_format (env : Env) (format : ExportFormat)
    (hformat : ∀ f ∈ exportFormats, format.mimeTypeName ≠ f.mimeTypeName) :
    format.mimeTypeName ≠ "application/pdf" ∧ format.mimeTypeName ≠ "text/plain" ∧
    ∀ (d : TextDocumentGeneratorPrivate) (fileName : QString) (w : World),
      exportTo env d fileName format w = (false, w) := by
  have hpdf : format.mimeTypeName ≠ "application/pdf" :=
    hformat (ExportFormat.standardFormat ExportFormat.StandardExportFormat.PDF)
      (by simp [exportFormats])
  have htxt : format.mimeTypeName ≠ "text/plain" :=
    hformat (ExportFormat.standardFormat ExportFormat.StandardExportFormat.PlainText)
      (by simp [exportFormats])
  refine ⟨hpdf, htxt, ?_⟩
  intro d fileName w
  unfold exportTo
  cases d.mDocument with
  | none => rfl
  | some doc => simp only [if_neg hpdf, if_neg htxt]

/-- C5. When no document is loaded, `TextDocumentGenerator::generatePixmap( request )`
is a no-op: the world after the call is the world before it, so no page's pixmap cache
changes and no request is signalled as done. -/
theorem generatePixmap_without_document (d : TextDocumentGeneratorPrivate)
    (request : PixmapRequest) (w : World) (hdoc : d.mDocument = none) :
    generatePixmap d request w = some w := by
  simp only [generatePixmap, hdoc]

/-- Looking up another observer id is not affected by dropping the entries of `id`. -/
theorem find_filter_other (pixmaps : List (Int × QPixmap)) (id other : Int) (h : other ≠ id) :
    (pixmaps.filter (fun e => e.1 != id)).find? (fun e => e.1 == other)
      = pixmaps.find? (fun e => e.1 == other) := by
  induction pixmaps with
  | nil => rfl
  | cons e rest ih =>
    by_cases he : e.1 = id
    · have hne : ¬ e.1 = other := fun h2 => h (h2.symm.trans he)
      have h1 : (e.1 != id) = false := by simp [he]
      have h2 : (e.1 == other) = false := by simpa using hne
      rw [List.filter_cons, h1, List.find?_cons, h2]
      simpa using ih
    · have h1 : (e.1 != id) = true := by simpa using he
      rw [List.filter_cons, h1]
      simp only [if_true, List.find?_cons]
      rw [ih]

/-- After `setPixmap( id, pixmap )` the page caches `pixmap` for `id`. -/
theorem pixmap_setPixmap_self (page : Page) (id : Int) (pixmap : QPixmap) :
    (page.setPixmap id pixmap).pixmap id = some pixmap := by
  simp [Page.setPixmap, Page.pixmap]

/-- After `setPixmap( id, pixmap )` the page caches for every other observer id what
it cached before. -/
theorem pixmap_setPixmap_other (page : Page) (id other : Int) (pixmap : QPixmap)
    (h : other ≠ id) : (page.setPixmap id pixmap).pixmap other = page.pixmap other := by
  simp only [Page.setPixmap, Page.pixmap]
  rw [List.find?_cons]
  have : ((id, pixmap).1 == other) = false := by simpa using Ne.symm h
  rw [this, find_filter_other _ _ _ h]

/-- Painting on a pixmap keeps its width. -/
theorem QPixmap.width_paint (pixmap : QPixmap) (command : PaintCommand) :
    (pixmap.paint command).width = pixmap.width := by
  unfold QPixmap.paint
  split <;> rfl

/-- Painting on a pixmap keeps its height. -/
theorem QPixmap.height_paint (pixmap : QPixmap) (command : PaintCommand) :
    (pixmap.paint command).height = pixmap.height := by
  unfold QPixmap.paint
  split <;> rfl

/-- The pixmap constructed with two positive arguments has them as width and height. -/
theorem QPixmap.ctor_of_pos (width height : Int) (h : 0 < width ∧ 0 < height) :
    QPixmap.ctor width height = ⟨width, height, []⟩ := by
  rw [QPixmap.ctor, if_pos h]

/-- The pixmap constructed with an argument that is not positive is the null pixmap. -/
theorem QPixmap.ctor_of_not_pos (width height : Int) (h : ¬ (0 < width ∧ 0 < height)) :
    QPixmap.ctor width height = ⟨0, 0, []⟩ := by
  rw [QPixmap.ctor, if_neg h]

/-- C6 (as amended). With a document loaded, `TextDocumentGenerator::generatePixmap(
request )` on a request for an existing page completes; afterwards that page caches,
under the observer id `request.id`, a pixmap whose width and height are those of the
request when both are positive, and a null pixmap of width and height 0 otherwise;
the request has been signalled as done exactly once (it is the one signal added),
the pixmaps the page caches for other observer ids are unchanged, and all other pages
are unchanged. -/
theorem generatePixmap_stores_pixmap (d : TextDocumentGeneratorPrivate) (request : PixmapRequest)
    (w : World) (doc : QTextDocument) (address : Nat) (page : Page)
    (hdoc : d.mDocument = some doc) (hreq : request.page = some address)
    (hpage : w.pages[address]? = some page) :
    ∃ (w' : World) (page' : Page) (pixmap : QPixmap),
      generatePixmap d request w = some w' ∧
      w'.pages[address]? = some page' ∧
      page'.pixmap request.id = some pixmap ∧
      (0 < request.width ∧ 0 < request.height →
        pixmap.width = request.width ∧ pixmap.height = request.height) ∧
      (¬ (0 < request.width ∧ 0 < request.height) →
        pixmap.width = 0 ∧ pixmap.height = 0 ∧ pixmap.isNull = true) ∧
      w'.pixmapRequestsDone = w.pixmapRequestsDone ++ [request] ∧
      (∀ other : Int, other ≠ request.id → page'.pixmap other = page.pixmap other) ∧
      (∀ a : Nat, a ≠ address → w'.pages[a]? = w.pages[a]?) ∧
      w'.pages.length = w.pages.length := by
  have hlt : address < w.pages.length := by
    rcases Nat.lt_or_ge address w.pages.length with h | h
    · exact h
    · rw [List.getElem?_eq_none h] at hpage; exact absurd hpage (by simp)
  simp only [generatePixmap, hdoc, hreq, hpage, World.signalPixmapRequestDone]
  refine ⟨_, _, _, rfl, List.getElem?_set_self hlt, pixmap_setPixmap_self _ _ _, ?_, ?_, rfl,
    ?_, ?_, ?_⟩
  · intro hpos
    simp only [QPixmap.width_paint, QPixmap.height_paint, QPixmap.ctor_of_pos _ _ hpos,
      and_self]
  · intro hneg
    simp only [QPixmap.isNull, QPixmap.width_paint, QPixmap.height_paint,
      QPixmap.ctor_of_not_pos _ _ hneg, le_refl, decide_True, Bool.or_self, and_self]
  · intro other h
    exact pixmap_setPixmap_other _ _ _ _ h
  · intro a h
    exact List.getElem?_set_ne (Ne.symm h)
  · simp

/-- C6 (counterexample). Observer 3 requests the second page of the sample document
at 0 x 40 pixels. The call completes and signals the request once, and the pixmap that
the page then caches for observer 3 is the null pixmap, nothing painted on it: its
height is 0, not the height 40 of the request. -/
theorem generatePixmap_empty_request_null_pixmap :
    Sample.loadedPrivate.mDocument = some Sample.document ∧
    Sample.emptyRequest.width = 0 ∧ Sample.emptyRequest.height = 40 ∧
    ∃ (w' : World) (page' : Page),
      generatePixmap Sample.loadedPrivate Sample.emptyRequest Sample.pagesWorld = some w' ∧
      w'.pixmapRequestsDone = [Sample.emptyRequest] ∧
      w'.pages[1]? = some page' ∧
      page'.pixmap Sample.emptyRequest.id = some ⟨0, 0, []⟩ ∧
      ¬ ∃ pixmap : QPixmap, page'.pixmap Sample.emptyRequest.id = some pixmap ∧
        pixmap.width = Sample.emptyRequest.width ∧
        pixmap.height = Sample.emptyRequest.height :=
  ⟨rfl, rfl, rfl, _, _, rfl, rfl, rfl, rfl, by decide⟩

/-- Example of a completed load: "notes.txt" with the sample converter, which returns
a two-page document. -/
theorem loadDocument_pages_numbered_witness :
    (Sample.converter.convert "notes.txt").2 = some Sample.document ∧
    loadDocument Sample.env Sample.converter "notes.txt" ctor Sample.world [some 7, none, none]
      = some Sample.loaded ∧
    (Sample.loaded.result = true ∧
     Sample.loaded.pagesVector.length = Sample.document.pageCount ∧
     ∀ i, i < Sample.document.pageCount →
       ∃ (address : Nat) (page : Page),
         Sample.loaded.pagesVector[i]? = some (some address) ∧
         Sample.loaded.world.pages[address]? = some page ∧ page.number = i) :=
  ⟨rfl, by decide,
   loadDocument_pages_numbered Sample.env Sample.converter "notes.txt" ctor Sample.world
     [some 7, none, none] Sample.document Sample.loaded rfl (by decide)⟩

/-- Witness of C2: the sample converter fails on "broken.txt". -/
theorem loadDocument_failure_keeps_pagesVector_witness :
    (Sample.converter.convert "broken.txt").2 = none ∧
    ∃ r : Loaded,
      loadDocument Sample.env Sample.converter "broken.txt" ctor Sample.pagesWorld
        [some 0, some 1] = some r ∧
      r.result = false ∧ r.pagesVector = [some 0, some 1] ∧ r.world = Sample.pagesWorld :=
  ⟨rfl, loadDocument_failure_keeps_pagesVector Sample.env Sample.converter "broken.txt" ctor
    Sample.pagesWorld [some 0, some 1] rfl⟩

/-- The private data after a failed `loadDocument`: what the slots gathered from the
converter, with the document null and the three lists of positions cleared. The
document info is the gathered one. -/
theorem loadDocument_failure_private (env : Env) (mConverter : TextDocumentConverter)
    (fileName : QString) (d : TextDocumentGeneratorPrivate) (w : World)
    (pagesVector : List (Option Nat))
    (hconv : (mConverter.convert fileName).2 = none) :
    ∃ r : Loaded, loadDocument env mConverter fileName d w pagesVector = some r ∧
      r.d.mDocument = none ∧ r.d.mTitlePositions = [] ∧ r.d.mLinkPositions = [] ∧
      r.d.mAnnotationPositions = [] ∧
      r.d.mDocumentInfo = ((mConverter.convert fileName).1.foldl (receive env) d).mDocumentInfo := by
  simp only [loadDocument, hconv]
  exact ⟨_, rfl, rfl, rfl, rfl, rfl, rfl⟩

/-- C3 (evaluation at the failing input). A freshly closed generator loads
"broken.txt" with the sample converter, which emits `addMetaData( "author", "A",
"Author" )`, a title, a link and an annotation and then fails. After the failed
`loadDocument` the title, link and annotation positions are empty as in a freshly
closed generator, but the document info holds the entry gathered from the converter
and differs from that of the freshly closed generator. -/
theorem loadDocument_failure_retains_metadata :
    ∃ r : Loaded,
      loadDocument Sample.env Sample.converter "broken.txt"
        (doCloseDocument Sample.loadedPrivate).2 Sample.world [] = some r ∧
      r.result = false ∧
      r.d.mTitlePositions = (doCloseDocument Sample.loadedPrivate).2.mTitlePositions ∧
      r.d.mLinkPositions = (doCloseDocument Sample.loadedPrivate).2.mLinkPositions ∧
      r.d.mAnnotationPositions = (doCloseDocument Sample.loadedPrivate).2.mAnnotationPositions ∧
      r.d.mDocumentInfo = ⟨[⟨"author", "A", "Author"⟩]⟩ ∧
      (doCloseDocument Sample.loadedPrivate).2.mDocumentInfo = ⟨[]⟩ ∧
      r.d.mDocumentInfo ≠ (doCloseDocument Sample.loadedPrivate).2.mDocumentInfo :=
  ⟨_, rfl, rfl, rfl, rfl, rfl, by decide, rfl, by decide⟩

/-- Witness of C4: the mime type text/html is not among the export formats. -/
theorem exportTo_unsupported_format_witness :
    (∀ f ∈ exportFormats, (⟨"HTML", "text/html"⟩ : ExportFormat).mimeTypeName ≠ f.mimeTypeName) ∧
    ((⟨"HTML", "text/html"⟩ : ExportFormat).mimeTypeName ≠ "application/pdf" ∧
     (⟨"HTML", "text/html"⟩ : ExportFormat).mimeTypeName ≠ "text/plain" ∧
     ∀ (d : TextDocumentGeneratorPrivate) (fileName : QString) (w : World),
       exportTo Sample.env d fileName ⟨"HTML", "text/html"⟩ w = (false, w)) :=
  ⟨by decide, exportTo_unsupported_format Sample.env ⟨"HTML", "text/html"⟩ (by decide)⟩

/-- After `doCloseDocument` no document is loaded. -/
theorem doCloseDocument_mDocument (d : TextDocumentGeneratorPrivate) :
    (doCloseDocument d).2.mDocument = none := rfl

/-- Witness of C5: a generator that has been closed. -/
theorem generatePixmap_without_document_witness :
    (doCloseDocument Sample.loadedPrivate).2.mDocument = none ∧
    generatePixmap (doCloseDocument Sample.loadedPrivate).2 Sample.request Sample.pagesWorld
      = some Sample.pagesWorld :=
  ⟨rfl, generatePixmap_without_document (doCloseDocument Sample.loadedPrivate).2 Sample.request
    Sample.pagesWorld rfl⟩

/-- Witness of C6: observer 3 requests the second page of the sample document, which
caches an older pixmap for the observers 3 and 4. -/
theorem generatePixmap_stores_pixmap_witness :
    Sample.loadedPrivate.mDocument = some Sample.document ∧
    Sample.request.page = some 1 ∧
    Sample.pagesWorld.pages[1]? = some ({ Page.ctor 1 100 100 Rotation.Rotation0 with
      pixmaps := [(3, Sample.oldPixmap), (4, Sample.oldPixmap)] }) ∧
    ∃ (w' : World) (page' : Page) (pixmap : QPixmap),
      generatePixmap Sample.loadedPrivate Sample.request Sample.pagesWorld = some w' ∧
      w'.pages[1]? = some page' ∧
      page'.pixmap Sample.request.id = some pixmap ∧
      (0 < Sample.request.width ∧ 0 < Sample.request.height →
        pixmap.width = Sample.request.width ∧ pixmap.height = Sample.request.height) ∧
      (¬ (0 < Sample.request.width ∧ 0 < Sample.request.height) →
        pixmap.width = 0 ∧ pixmap.height = 0 ∧ pixmap.isNull = true) ∧
      w'.pixmapRequestsDone = Sample.pagesWorld.pixmapRequestsDone ++ [Sample.request] ∧
      (∀ other : Int, other ≠ Sample.request.id →
        page'.pixmap other = ({ Page.ctor 1 100 100 Rotation.Rotation0 with
          pixmaps := [(3, Sample.oldPixmap), (4, Sample.oldPixmap)] } : Page).pixmap other) ∧
      (∀ a : Nat, a ≠ 1 → w'.pages[a]? = Sample.pagesWorld.pages[a]?) ∧
      w'.pages.length = Sample.pagesWorld.pages.length :=
  ⟨rfl, rfl, rfl,
   generatePixmap_stores_pixmap Sample.loadedPrivate Sample.request Sample.pagesWorld
     Sample.document 1 _ rfl rfl rfl⟩

end TextDocumentGenerator

end Okular

/-! ## Theorems: meta data, synopsis and capabilities of the text document generator -/

namespace Okular

namespace TextDocumentGenerator

open TextDocumentGeneratorPrivate

/-- C11. `TextDocumentGeneratorPrivate::metaData` returns the document-info value
stored under "title" when the key is "DocumentTitle" and the invalid variant for
every other key; for every key the result is the same for any two values of the
option argument. -/
theorem metaData_documentTitle (d : TextDocumentGeneratorPrivate) (key : QString)
    (option other : QVariant) :
    (key = "DocumentTitle" →
      metaData d key option = QVariant.ofString (d.mDocumentInfo.get "title")) ∧
    (key ≠ "DocumentTitle" → metaData d key option = QVariant.invalid) ∧
    metaData d key option = metaData d key other := by
  refine ⟨?_, ?_, rfl⟩
  · intro h
    simp [metaData, h]
  · intro h
    simp [metaData, h]

/-- C12. `TextDocumentGenerator::generateDocumentSynopsis` returns null exactly when
the synopsis has no child nodes, and otherwise returns the generator's synopsis. -/
theorem generateDocumentSynopsis_null_iff (d : TextDocumentGeneratorPrivate) :
    (generateDocumentSynopsis d = none ↔ d.mDocumentSynopsis.hasChildNodes = false) ∧
    (d.mDocumentSynopsis.hasChildNodes = true →
      generateDocumentSynopsis d = some d.mDocumentSynopsis) := by
  unfold generateDocumentSynopsis
  cases h : d.mDocumentSynopsis.hasChildNodes <;> simp

/-- Setting a feature on advertises it. -/
theorem hasFeature_setFeature_self (g : Generator) (feature : GeneratorFeature) :
    (g.setFeature feature true).hasFeature feature = true := by
  unfold Generator.setFeature Generator.hasFeature
  rw [if_pos rfl]
  by_cases h : g.features.contains feature = true
  · rw [if_pos h]; exact h
  · rw [if_neg h]; simp

/-- Setting a feature on keeps the features advertised before. -/
theorem hasFeature_setFeature_of_hasFeature (g : Generator) (feature kept : GeneratorFeature)
    (h : g.hasFeature kept = true) : (g.setFeature feature true).hasFeature kept = true := by
  unfold Generator.setFeature
  rw [if_pos rfl]
  by_cases hc : g.features.contains feature = true
  · rw [if_pos hc]; exact h
  · rw [if_neg hc]
    unfold Generator.hasFeature at h ⊢
    rw [List.contains_iff_exists_mem_beq] at h ⊢
    obtain ⟨x, hx, hbeq⟩ := h
    exact ⟨x, List.mem_append_left _ hx, hbeq⟩

/-- C13. Every constructed `TextDocumentGenerator` advertises the capabilities
`TextExtraction`, `PrintNative` and `PrintToFile`, whatever the base class constructor
has set. -/
theorem construct_advertises_features (base : Generator) :
    (construct base).base.hasFeature GeneratorFeature.TextExtraction = true ∧
    (construct base).base.hasFeature GeneratorFeature.PrintNative = true ∧
    (construct base).base.hasFeature GeneratorFeature.PrintToFile = true := by
  refine ⟨?_, ?_, ?_⟩
  · exact hasFeature_setFeature_of_hasFeature _ _ _
      (hasFeature_setFeature_of_hasFeature _ _ _ (hasFeature_setFeature_self _ _))
  · exact hasFeature_setFeature_of_hasFeature _ _ _ (hasFeature_setFeature_self _ _)
  · exact hasFeature_setFeature_self _ _

end TextDocumentGenerator

end Okular

/-! ## Theorems: the document engine -/

namespace Okular

namespace Document

/-- C14. Setting the same viewport twice in succession leaves, after the second call,
the viewport manager as the first call left it: the second call, whose viewport
equals the current one, changes nothing. When the viewport differs from the one
that was current, the back history has got exactly one new entry, the viewport that
was current, not two. -/
theorem setViewport_twice (vm : ViewportManager) (viewport : DocumentViewport) :
    setViewport (setViewport vm viewport) viewport = setViewport vm viewport ∧
    (viewport ≠ vm.current →
      (setViewport (setViewport vm viewport) viewport).back
        = ViewportManager.push vm.bound vm.current vm.back) ∧
    (viewport ≠ vm.current → vm.back.length < vm.bound →
      (setViewport (setViewport vm viewport) viewport).back = vm.current :: vm.back) := by
  have h1 : setViewport (setViewport vm viewport) viewport = setViewport vm viewport := by
    unfold setViewport
    by_cases h : viewport = vm.current
    · simp [h]
    · simp [h]
  refine ⟨h1, ?_, ?_⟩
  · intro h
    rw [h1]
    simp [setViewport, h]
  · intro h hlen
    rw [h1]
    simp only [setViewport, h, if_false, ViewportManager.push]
    exact List.take_of_length_le (by simp; omega)

/-- C15. For every state of the viewport manager whose stacks respect the bound and
whose history is not at its beginning, `setPrevViewport` followed immediately by
`setNextViewport` restores the original current viewport. -/
theorem setPrevViewport_setNextViewport (vm : ViewportManager) (hbounded : vm.bounded)
    (hbegin : historyAtBegin vm = false) :
    (setNextViewport (setPrevViewport vm)).current = vm.current := by
  unfold historyAtBegin at hbegin
  obtain ⟨hback, -⟩ := hbounded
  cases hb : vm.back with
  | nil => simp [hb] at hbegin
  | cons previous rest =>
    rw [hb] at hback
    obtain ⟨k, hk⟩ : ∃ k, vm.bound = k + 1 := ⟨vm.bound - 1, by simp at hback; omega⟩
    simp [setPrevViewport, setNextViewport, hb, ViewportManager.push, hk]

/-- Witness of C15: the sample viewport manager, on page 3 after page 1. -/
theorem setPrevViewport_setNextViewport_witness :
    Sample.viewports.bounded ∧ historyAtBegin Sample.viewports = false ∧
    (setNextViewport (setPrevViewport Sample.viewports)).current = Sample.viewportOn 3 :=
  ⟨by decide, rfl, setPrevViewport_setNextViewport Sample.viewports (by decide) rfl⟩

/-- C16. `Document::page( number )` returns the page object at index `number` when
`0 ≤ number < pages()` and returns no page for every number out of that range,
negative numbers included. -/
theorem page_in_range_iff (store : PageStore) (number : Int) :
    (0 ≤ number → number < pages store →
      ∃ p : Page, page store number = some p ∧ store.pagesVector[number.toNat]? = some p) ∧
    (number < 0 → page store number = none) ∧
    ((pages store : Int) ≤ number → page store number = none) := by
  unfold page pages
  refine ⟨?_, ?_, ?_⟩
  · intro h0 h1
    have hlt : number.toNat < store.pagesVector.length := by omega
    refine ⟨store.pagesVector[number.toNat], ?_, ?_⟩
    · rw [if_neg (by omega)]
      exact List.getElem?_eq_getElem hlt
    · exact List.getElem?_eq_getElem hlt
  · intro h
    rw [if_pos h]
  · intro h
    have h0 : ¬ number < 0 := by omega
    rw [if_neg h0]
    exact List.getElem?_eq_none (by omega)

end Document

end Okular

namespace Okular

namespace Document

/-- The session stored for a searchID is the session found for it. -/
theorem session_setSession_self (e : SearchEngine) (searchID : Int) (s : SearchState) :
    (e.setSession searchID s).session searchID = some s := by
  simp [SearchEngine.setSession, SearchEngine.session]

/-- The run loop stops on an engine without scheduled steps. -/
theorem runLoop_of_scheduled_nil (source : SearchSource) (store : PageStore) (steps : Nat)
    (e : SearchEngine) (h : e.scheduled = []) : runLoop source store steps e = e := by
  cases steps with
  | zero => rfl
  | succ k => simp [runLoop, h]

/-- Processing the page under the cursor keeps the query and the state of the
session, moves the cursor by one page and adds the page to the pages to notify
exactly when the query has a match on it. -/
theorem processPage_spec (source : SearchSource) (s : SearchState)
    (hinv : s.pageMatches.isEmpty = s.pagesToNotify.isEmpty) :
    (s.processPage source).phase = s.phase ∧ (s.processPage source).text = s.text ∧
    (s.processPage source).caseSensitivity = s.caseSensitivity ∧
    (s.processPage source).currentPage = s.currentPage + 1 ∧
    (s.processPage source).pageMatches.isEmpty = (s.processPage source).pagesToNotify.isEmpty ∧
    (s.processPage source).pagesToNotify = s.pagesToNotify ++
      hitsFrom source s.text s.caseSensitivity s.currentPage 1 := by
  by_cases hfound :
      (source.findAll (source.textPage s.currentPage) s.text s.caseSensitivity).isEmpty = true
  · have e : s.processPage source = { s with currentPage := s.currentPage + 1 } := by
      unfold SearchState.processPage
      simp only [hfound, if_true]
    rw [e]
    refine ⟨rfl, rfl, rfl, rfl, hinv, ?_⟩
    simp [hitsFrom, List.range'_succ, hfound]
  · have e : s.processPage source = { s with
        pageMatches := s.pageMatches ++ [(s.currentPage,
          source.findAll (source.textPage s.currentPage) s.text s.caseSensitivity)]
        pagesToNotify := s.pagesToNotify ++ [s.currentPage]
        currentPage := s.currentPage + 1 } := by
      unfold SearchState.processPage
      simp only [hfound]
      rfl
    rw [e]
    refine ⟨rfl, rfl, rfl, rfl, ?_, ?_⟩
    · show (s.pageMatches ++ _).isEmpty = (s.pagesToNotify ++ _).isEmpty
      cases s.pageMatches <;> cases s.pagesToNotify <;> rfl
    · simp [hitsFrom, List.range'_succ, hfound]

/-- The hits among `count + 1` pages are the hit on the first page, if it is one,
followed by the hits among the `count` next pages. -/
theorem hitsFrom_succ (source : SearchSource) (text : QString)
    (caseSensitivity : CaseSensitivity) (first count : Nat) :
    hitsFrom source text caseSensitivity first (count + 1)
      = hitsFrom source text caseSensitivity first 1
        ++ hitsFrom source text caseSensitivity (first + 1) count := by
  unfold hitsFrom
  rw [show count + 1 = count + 1 from rfl, ← List.range'_append_1 first 1 count,
    List.filter_append]

/-- The continuation step of a session whose cursor is behind the last page: the
search is finalized. -/
theorem doContinueAllDocumentSearch_last (source : SearchSource) (store : PageStore)
    (e : SearchEngine) (searchID : Int) (s : SearchState)
    (hs : e.session searchID = some s) (hphase : s.phase = SearchPhase.Searching)
    (hpage : ¬ s.currentPage < pages store) :
    (doContinueAllDocumentSearch source store e searchID).scheduled = e.scheduled ∧
    (doContinueAllDocumentSearch source store e searchID).searchFinished
      = e.searchFinished ++ [(searchID, s.status)] ∧
    (doContinueAllDocumentSearch source store e searchID).pageChanged
      = e.pageChanged ++ s.pagesToNotify := by
  simp only [doContinueAllDocumentSearch, hs]
  rw [if_neg (by simp [hphase]), if_neg hpage]
  exact ⟨rfl, rfl, rfl⟩

/-- The continuation step of a session whose cursor is on a page: the page is
processed and the step is scheduled again. -/
theorem doContinueAllDocumentSearch_page (source : SearchSource) (store : PageStore)
    (e : SearchEngine) (searchID : Int) (s : SearchState)
    (hs : e.session searchID = some s) (hphase : s.phase = SearchPhase.Searching)
    (hpage : s.currentPage < pages store) :
    (doContinueAllDocumentSearch source store e searchID).session searchID
      = some (s.processPage source) ∧
    (doContinueAllDocumentSearch source store e searchID).scheduled
      = e.scheduled ++ [searchID] ∧
    (doContinueAllDocumentSearch source store e searchID).searchFinished = e.searchFinished ∧
    (doContinueAllDocumentSearch source store e searchID).pageChanged = e.pageChanged := by
  simp only [doContinueAllDocumentSearch, hs]
  rw [if_neg (by simp [hphase]), if_pos hpage]
  exact ⟨session_setSession_self _ _ _, rfl, rfl, rfl⟩

/-- The run loop on an engine whose only scheduled step continues an `AllDocument`
search with `count` pages left: the loop ends with no step scheduled, one completion
notification added, and the pages to notify, old and new, notified. -/
theorem runLoop_allDocument (source : SearchSource) (store : PageStore) (searchID : Int)
    (count : Nat) :
    ∀ (steps : Nat) (e : SearchEngine) (s : SearchState),
      count + 1 ≤ steps → e.scheduled = [searchID] → e.session searchID = some s →
      s.phase = SearchPhase.Searching → s.currentPage + count = pages store →
      s.pageMatches.isEmpty = s.pagesToNotify.isEmpty →
      (runLoop source store steps e).scheduled = [] ∧
      (runLoop source store steps e).searchFinished = e.searchFinished ++
        [(searchID,
          if (s.pagesToNotify ++
              hitsFrom source s.text s.caseSensitivity s.currentPage count).isEmpty
          then SearchStatus.NoMatchFound else SearchStatus.MatchFound)] ∧
      (runLoop source store steps e).pageChanged = e.pageChanged ++
        (s.pagesToNotify ++ hitsFrom source s.text s.caseSensitivity s.currentPage count) := by
  induction count with
  | zero =>
    intro steps e s hsteps hsched hs hphase hcount hinv
    obtain ⟨k, rfl⟩ : ∃ k, steps = k + 1 := ⟨steps - 1, by omega⟩
    have hpage : ¬ s.currentPage < pages store := by omega
    obtain ⟨h1, h2, h3⟩ := doContinueAllDocumentSearch_last source store
      { e with scheduled := [] } searchID s hs hphase hpage
    simp only [runLoop, hsched]
    rw [runLoop_of_scheduled_nil _ _ _ _ h1]
    refine ⟨h1, ?_, ?_⟩
    · rw [h2]
      simp [hitsFrom, SearchState.status, hinv]
    · rw [h3]
      simp [hitsFrom]
  | succ n ih =>
    intro steps e s hsteps hsched hs hphase hcount hinv
    obtain ⟨k, rfl⟩ : ∃ k, steps = k + 1 := ⟨steps - 1, by omega⟩
    have hpage : s.currentPage < pages store := by omega
    obtain ⟨h1, h2, h3, h4⟩ := doContinueAllDocumentSearch_page source store
      { e with scheduled := [] } searchID s hs hphase hpage
    obtain ⟨p1, p2, p3, p4, p5, p6⟩ := processPage_spec source s hinv
    simp only [runLoop, hsched]
    obtain ⟨r1, r2, r3⟩ := ih k _ (s.processPage source) (by omega) h2 h1 (by rw [p1, hphase])
      (by rw [p4]; omega) p5
    refine ⟨r1, ?_, ?_⟩
    · rw [r2, h3, p6, p2, p3, p4, hitsFrom_succ source s.text s.caseSensitivity s.currentPage n,
        List.append_assoc]
    · rw [r3, h4, p6, p2, p3, p4, hitsFrom_succ source s.text s.caseSensitivity s.currentPage n,
        List.append_assoc]

/-- The pages below `n` among which exactly 2 and 5 satisfy a predicate. -/
theorem filter_range_two_five (hit : Nat → Bool) (n : Nat) (hn : 5 < n)
    (h : ∀ p, p < n → (hit p = true ↔ p = 2 ∨ p = 5)) :
    (List.range' 0 n).filter hit = [2, 5] := by
  obtain ⟨m, rfl⟩ : ∃ m, n = m + 6 := ⟨n - 6, by omega⟩
  have e : List.range' 0 (m + 6) = [0, 1, 2, 3, 4, 5] ++ List.range' 6 m := by
    rw [← List.range'_append_1 0 6 m]
    rfl
  rw [e, List.filter_append]
  have h0 : hit 0 = false := by
    have := h 0 (by omega); simpa using this
  have h1 : hit 1 = false := by
    have := h 1 (by omega); simpa using this
  have h2 : hit 2 = true := (h 2 (by omega)).2 (Or.inl rfl)
  have h3 : hit 3 = false := by
    have := h 3 (by omega); simpa using this
  have h4 : hit 4 = false := by
    have := h 4 (by omega); simpa using this
  have h5 : hit 5 = true := (h 5 (by omega)).2 (Or.inr rfl)
  have hrest : (List.range' 6 m).filter hit = [] := by
    rw [List.filter_eq_nil_iff]
    intro p hp
    rw [List.mem_range'_1] at hp
    intro hhit
    have := (h p (by omega)).1 hhit
    omega
  simp [List.filter_cons, h0, h1, h2, h3, h4, h5, hrest]

/-- C17. An `AllDocument` search over a document with more than five pages where
exactly the pages 2 and 5 contain the query string (have a non-empty match-set),
started on an engine with no step scheduled, terminates: once the run loop has taken
`pages() + 1` steps or more, no continuation step is scheduled, `searchFinished` has
been delivered once more, for this search with the status `MatchFound`, and the pages
notified are exactly 2 and 5. -/
theorem allDocument_search_two_five (source : SearchSource) (store : PageStore)
    (e : SearchEngine) (searchID : Int) (text : QString) (caseSensitivity : CaseSensitivity)
    (color steps : Nat)
    (hpages : 5 < pages store)
    (hcontain : ∀ p, p < pages store →
      (source.findAll (source.textPage p) text caseSensitivity ≠ [] ↔ p = 2 ∨ p = 5))
    (hidle : e.scheduled = [])
    (hsteps : pages store + 1 ≤ steps) :
    (runLoop source store steps
      (searchTextAllDocument e searchID text caseSensitivity color)).scheduled = [] ∧
    (runLoop source store steps
      (searchTextAllDocument e searchID text caseSensitivity color)).searchFinished
      = e.searchFinished ++ [(searchID, SearchStatus.MatchFound)] ∧
    (runLoop source store steps
      (searchTextAllDocument e searchID text caseSensitivity color)).pageChanged
      = e.pageChanged ++ [2, 5] := by
  have hhits : hitsFrom source text caseSensitivity 0 (pages store) = [2, 5] := by
    apply filter_range_two_five _ _ hpages
    intro p hp
    rw [← hcontain p hp]
    simp
  obtain ⟨r1, r2, r3⟩ := runLoop_allDocument source store searchID (pages store) steps
    (searchTextAllDocument e searchID text caseSensitivity color)
    ⟨SearchPhase.Searching, SearchType.AllDocument, text, caseSensitivity, color, 0, [], []⟩
    hsteps (by simp [searchTextAllDocument, hidle, SearchEngine.setSession])
    (session_setSession_self _ _ _) rfl (by simp) rfl
  simp only [hhits] at r1 r2 r3
  refine ⟨r1, ?_, ?_⟩
  · rw [r2]; simp [searchTextAllDocument, SearchEngine.setSession]
  · rw [r3]; simp [searchTextAllDocument, SearchEngine.setSession]

/-- Witness of C17: the sample document of seven pages, where the pages 2 and 5 hold
the query "okular", searched from an idle engine with eight steps of the run loop. -/
theorem allDocument_search_two_five_witness :
    5 < pages Sample.pageStore ∧
    (∀ p, p < pages Sample.pageStore →
      (Sample.searchSource.findAll (Sample.searchSource.textPage p) "okular"
        CaseSensitivity.CaseSensitive ≠ [] ↔ p = 2 ∨ p = 5)) ∧
    SearchEngine.idle.scheduled = [] ∧
    pages Sample.pageStore + 1 ≤ 8 ∧
    (runLoop Sample.searchSource Sample.pageStore 8
      (searchTextAllDocument SearchEngine.idle 1 "okular" CaseSensitivity.CaseSensitive
        0)).scheduled = [] ∧
    (runLoop Sample.searchSource Sample.pageStore 8
      (searchTextAllDocument SearchEngine.idle 1 "okular" CaseSensitivity.CaseSensitive
        0)).searchFinished = SearchEngine.idle.searchFinished ++ [(1, SearchStatus.MatchFound)] ∧
    (runLoop Sample.searchSource Sample.pageStore 8
      (searchTextAllDocument SearchEngine.idle 1 "okular" CaseSensitivity.CaseSensitive
        0)).pageChanged = SearchEngine.idle.pageChanged ++ [2, 5] :=
  ⟨by decide, by decide, rfl, by decide,
   allDocument_search_two_five Sample.searchSource Sample.pageStore SearchEngine.idle 1 "okular"
     CaseSensitivity.CaseSensitive 0 8 (by decide) (by decide) rfl (by decide)⟩

end Document

end Okular

/-! ## Theorems: form widgets -/

namespace Okular

namespace FormWidget

end FormWidget

end Okular

namespace Okular

namespace Gui

/-- Changing a button group leaves the widgets alone. -/
theorem modifyGroup_widgets (g : Gui) (address : Nat) (f : QButtonGroup → QButtonGroup) :
    (g.modifyGroup address f).widgets = g.widgets := by
  unfold modifyGroup
  split <;> rfl

/-- Changing a button group changes the group at its address. -/
theorem modifyGroup_self (g : Gui) (address : Nat) (f : QButtonGroup → QButtonGroup)
    (grp : QButtonGroup) (h : g.groups[address]? = some grp) :
    (g.modifyGroup address f).groups[address]? = some (f grp) := by
  have hlt : address < g.groups.length := by
    rcases Nat.lt_or_ge address g.groups.length with h1 | h1
    · exact h1
    · rw [List.getElem?_eq_none h1] at h; exact absurd h (by simp)
  simp only [modifyGroup, h]
  exact List.getElem?_set_self hlt

/-- Changing a widget leaves the button groups alone. -/
theorem modifyWidget_groups (g : Gui) (address : Nat) (f : FormWidget → FormWidget) :
    (g.modifyWidget address f).groups = g.groups := by
  unfold modifyWidget
  split <;> rfl

/-- Changing a widget changes the widget at its address. -/
theorem modifyWidget_self (g : Gui) (address : Nat) (f : FormWidget → FormWidget)
    (w : FormWidget) (h : g.widgets[address]? = some w) :
    (g.modifyWidget address f).widgets[address]? = some (f w) := by
  have hlt : address < g.widgets.length := by
    rcases Nat.lt_or_ge address g.widgets.length with h1 | h1
    · exact h1
    · rw [List.getElem?_eq_none h1] at h; exact absurd h (by simp)
  simp only [modifyWidget, h]
  exact List.getElem?_set_self hlt

/-- Changing a widget keeps the number of widgets. -/
theorem modifyWidget_length (g : Gui) (address : Nat) (f : FormWidget → FormWidget) :
    (g.modifyWidget address f).widgets.length = g.widgets.length := by
  unfold modifyWidget
  split
  · simp
  · rfl

/-- Unchecking a check box whose group is not exclusive: the call completes, the
check box is unchecked, the groups and the number of widgets are the same. -/
theorem setChecked_false_of_not_exclusive (g : Gui) (button : Nat) (w : FormWidget)
    (hw : g.widgets[button]? = some w) (hcheckable : w.formClass.checkable = true)
    (hexclusive : g.inExclusiveGroup w = false) :
    ∃ g' w', g.setChecked button false = some g' ∧ g'.widgets[button]? = some w' ∧
      w'.checked = false ∧ g'.groups = g.groups ∧
      g'.widgets.length = g.widgets.length := by
  unfold setChecked
  simp only [hw, hexclusive]
  by_cases h : (!w.formClass.checkable || w.checked == false) = true
  · rw [if_pos h]
    refine ⟨g, w, rfl, hw, ?_, rfl, rfl⟩
    simpa [hcheckable] using h
  · rw [if_neg h]
    simp only [Bool.not_false, Bool.and_false, Bool.false_and, Bool.false_eq_true, if_false]
    exact ⟨_, _, rfl, modifyWidget_self g button _ w hw, rfl, modifyWidget_groups _ _ _,
      modifyWidget_length _ _ _⟩

/-- Setting the exclusive flag leaves the widgets alone. -/
theorem setExclusive_widgets (g : Gui) (group : Nat) (exclusive : Bool) :
    (g.setExclusive group exclusive).widgets = g.widgets :=
  modifyGroup_widgets _ _ _

end Gui

namespace FormWidgetsController

/-- The activation action of a check box changes no widget. -/
theorem doActivateAction_widgets (g : Gui) (check : FormWidget) :
    (CheckBoxEdit.doActivateAction g check).widgets = g.widgets := by
  unfold CheckBoxEdit.doActivateAction
  split <;> rfl

/-- The activation action of a check box changes no button group. -/
theorem doActivateAction_groups (g : Gui) (check : FormWidget) :
    (CheckBoxEdit.doActivateAction g check).groups = g.groups := by
  unfold CheckBoxEdit.doActivateAction
  split <;> rfl

/-- The block that unchecks a clicked check box: it completes, the check box is
unchecked, and its group has the exclusive flag and the buttons it had. -/
theorem uncheckTemporarily_spec (g : Gui) (button group : Nat) (w : FormWidget)
    (grp : QButtonGroup) (hw : g.widgets[button]? = some w)
    (hcheckable : w.formClass.checkable = true) (hgroup : w.group = some group)
    (hgrp : g.groups[group]? = some grp) :
    ∃ g' w' grp', uncheckTemporarily g button group grp = some g' ∧
      g'.widgets[button]? = some w' ∧ w'.checked = false ∧
      g'.groups[group]? = some grp' ∧ grp'.exclusive = grp.exclusive ∧
      grp'.buttons = grp.buttons ∧ g'.widgets.length = g.widgets.length := by
  have h1 : (g.setExclusive group false).groups[group]? = some { grp with exclusive := false } :=
    Gui.modifyGroup_self g group _ grp hgrp
  have hw1 : (g.setExclusive group false).widgets[button]? = some w := by
    rw [Gui.setExclusive_widgets]; exact hw
  have hex : (g.setExclusive group false).inExclusiveGroup w = false := by
    simp only [Gui.inExclusiveGroup, hgroup, h1]
  obtain ⟨g2, w2, e1, e2, e3, e4, e5⟩ :=
    Gui.setChecked_false_of_not_exclusive (g.setExclusive group false) button w hw1 hcheckable hex
  have h2 : g2.groups[group]? = some { grp with exclusive := false } := by rw [e4]; exact h1
  refine ⟨g2.setExclusive group grp.exclusive, w2, _, ?_, ?_, e3,
    Gui.modifyGroup_self g2 group _ _ h2, rfl, rfl, ?_⟩
  · simp only [uncheckTemporarily, e1]
  · rw [Gui.setExclusive_widgets]; exact e2
  · rw [Gui.setExclusive_widgets, e5, Gui.setExclusive_widgets]

/-- The second half of `slotButtonClicked` completes when the buttons of the group
are widgets; it changes neither a widget nor a group. -/
theorem reportButtons_spec (g : Gui) (w : FormWidget) (group : Nat) (pageNumber : Int)
    (grp : QButtonGroup) (hgrp : g.groups[group]? = some grp)
    (hmembers : ∀ b ∈ grp.buttons, b < g.widgets.length) :
    ∃ g', reportButtons g w group pageNumber = some g' ∧ g'.widgets = g.widgets ∧
      g'.groups = g.groups := by
  have hall : grp.buttons.all (fun b => decide (b < g.widgets.length)) = true := by
    rw [List.all_eq_true]
    intro b hb
    simpa using hmembers b hb
  simp only [reportButtons, hgrp, hall, if_true]
  refine ⟨_, rfl, ?_, ?_⟩
  · by_cases hc : (w.formClass == FormClass.CheckBoxEdit) = true
    · rw [if_pos hc, doActivateAction_widgets]; split <;> rfl
    · rw [if_neg hc]; split <;> rfl
  · by_cases hc : (w.formClass == FormClass.CheckBoxEdit) = true
    · rw [if_pos hc, doActivateAction_groups]; split <;> rfl
    · rw [if_neg hc]; split <;> rfl

/-- C19. `FormWidgetsController::slotButtonClicked` on a `CheckBoxEdit` whose form
field state is currently true (in a group whose buttons are widgets, on a page
item) completes and leaves that check box unchecked, and the exclusive flag of its
button group after the call equals its value before the call. -/
theorem slotButtonClicked_unchecks_checkBox (g : Gui) (button group : Nat) (w : FormWidget)
    (grp : QButtonGroup) (pageNumber : Int)
    (hw : g.widgets[button]? = some w)
    (hclass : w.formClass = FormClass.CheckBoxEdit)
    (hstate : w.m_ff.state = true)
    (hgroup : w.group = some group)
    (hpage : w.pageNumber = some pageNumber)
    (hgrp : g.groups[group]? = some grp)
    (hmembers : ∀ b ∈ grp.buttons, b < g.widgets.length) :
    ∃ g' w' grp', slotButtonClicked g button = some g' ∧
      g'.widgets[button]? = some w' ∧ w'.checked = false ∧
      g'.groups[group]? = some grp' ∧ grp'.exclusive = grp.exclusive := by
  obtain ⟨g1, w1, grp1, e1, e2, e3, e4, e5, e6, e7⟩ :=
    uncheckTemporarily_spec g button group w grp hw (by rw [hclass]; rfl) hgroup hgrp
  obtain ⟨g2, f1, f2, f3⟩ := reportButtons_spec g1 w group pageNumber grp1 e4
    (by intro b hb; rw [e7]; exact hmembers b (e6 ▸ hb))
  refine ⟨g2, w1, grp1, ?_, by rw [f2]; exact e2, e3, by rw [f3]; exact e4, e5⟩
  simp only [slotButtonClicked, hw, hclass, hstate, hgroup, hpage, hgrp, beq_self_eq_true,
    Bool.true_or, if_true, Bool.and_self, e1, f1]

/-- Witness of C19: the checked sample check box, in an exclusive group of two. -/
theorem slotButtonClicked_unchecks_checkBox_witness :
    Sample.gui.widgets[0]? = some Sample.checkBox ∧
    Sample.checkBox.formClass = FormClass.CheckBoxEdit ∧
    Sample.checkBox.m_ff.state = true ∧
    Sample.checkBox.group = some 0 ∧
    Sample.checkBox.pageNumber = some 3 ∧
    Sample.gui.groups[0]? = some ⟨true, [0, 1], [(0, 7), (1, 8)], true⟩ ∧
    (∀ b ∈ [0, 1], b < Sample.gui.widgets.length) ∧
    ∃ g' w' grp', slotButtonClicked Sample.gui 0 = some g' ∧
      g'.widgets[0]? = some w' ∧ w'.checked = false ∧
      g'.groups[0]? = some grp' ∧ grp'.exclusive = true :=
  ⟨rfl, rfl, rfl, rfl, rfl, rfl, by decide,
   slotButtonClicked_unchecks_checkBox Sample.gui 0 0 Sample.checkBox
     ⟨true, [0, 1], [(0, 7), (1, 8)], true⟩ 3 rfl rfl rfl rfl rfl rfl (by decide)⟩

/-- The groups after `addButton` on a group that has just been allocated behind the
others: the new group holds the button and its id, with the exclusive flag of a new
group. -/
theorem addButton_new_group (g : Gui) (button : Nat) (id : Int) :
    (Gui.addButton { g with groups := g.groups ++ [QButtonGroup.ctor] } g.groups.length
      button id).groups[g.groups.length]?
      = some ⟨QButtonGroup.ctor.exclusive, [button], [(button, id)], false⟩ := by
  have h1 : ((g.groups ++ [QButtonGroup.ctor]).map (fun (grp : QButtonGroup) =>
      ({ grp with
        buttons := grp.buttons.filter (fun b => b != button)
        ids := grp.ids.filter (fun entry => entry.1 != button) } : QButtonGroup)))[g.groups.length]?
      = some QButtonGroup.ctor := by
    rw [List.map_append, List.getElem?_append_right (by simp)]
    simp [QButtonGroup.ctor]
  unfold Gui.addButton
  simp only []
  have h2 := Gui.modifyGroup_self
    ({ g with groups := (g.groups ++ [QButtonGroup.ctor]).map (fun (grp : QButtonGroup) =>
      ({ grp with
        buttons := grp.buttons.filter (fun b => b != button)
        ids := grp.ids.filter (fun entry => entry.1 != button) } : QButtonGroup)) } : Gui)
    g.groups.length
    (fun grp => { grp with buttons := grp.buttons ++ [button], ids := grp.ids ++ [(button, id)] })
    QButtonGroup.ctor h1
  split
  · split
    · show (Gui.modifyWidget _ _ _).groups[g.groups.length]? = _
      rw [Gui.modifyWidget_groups]
      exact h2
    · rw [Gui.modifyWidget_groups]
      exact h2
  · rw [Gui.modifyWidget_groups]
    exact h2

/-- C20. When `FormWidgetsController::registerRadioButton` creates a new group (no
registered group holds the id of the form field) for a button, the call completes
and appends the group's data to `m_radios`; the new group holds the button, it is
non-exclusive when the form field has no siblings and keeps the default exclusive
setting when the field has at least one sibling. -/
theorem registerRadioButton_new_group_exclusive (c : FormWidgetsController) (g : Gui)
    (button : Nat) (w : FormWidget) (formButton : FormField)
    (hw : g.widgets[button]? = some w)
    (hbutton : w.formClass.isAbstractButton = true)
    (hnew : ∀ data ∈ c.m_radios, formButton.id ∉ data.ids) :
    ∃ c' g' grp, registerRadioButton c g (some button) formButton = some (c', g') ∧
      c'.m_radios = c.m_radios ++
        [⟨formButton.siblings ++ [formButton.id], g.groups.length⟩] ∧
      g'.groups[g.groups.length]? = some grp ∧ grp.buttons = [button] ∧
      (formButton.siblings = [] → grp.exclusive = false) ∧
      (formButton.siblings ≠ [] → grp.exclusive = QButtonGroup.ctor.exclusive) := by
  have hfind : c.m_radios.find? (fun data => data.ids.contains formButton.id) = none := by
    rw [List.find?_eq_none]
    intro data hdata
    simpa using hnew data hdata
  have hgroup := addButton_new_group g button formButton.id
  simp only [registerRadioButton, hw, hbutton, Bool.not_true, Bool.false_eq_true, if_false,
    hfind]
  by_cases hs : formButton.siblings = []
  · refine ⟨_, _, ⟨false, [button], [(button, formButton.id)], true⟩, rfl, rfl, ?_, rfl,
      fun _ => rfl, fun h => absurd hs h⟩
    simp only [hs, List.isEmpty_nil, if_true]
    exact Gui.modifyGroup_self _ _ _ _ (Gui.modifyGroup_self _ _ _ _ hgroup)
  · have hne : formButton.siblings.isEmpty = false := by
      cases h : formButton.siblings with
      | nil => exact absurd h hs
      | cons x xs => rfl
    refine ⟨_, _, ⟨QButtonGroup.ctor.exclusive, [button], [(button, formButton.id)], true⟩, rfl,
      rfl, ?_, rfl, fun h => absurd h hs, fun _ => rfl⟩
    simp only [hne, Bool.false_eq_true, if_false]
    exact Gui.modifyGroup_self _ _ _ _ hgroup

/-- Witness of C20: the sample check box, whose field has one sibling, is registered
with a controller that has registered nothing. -/
theorem registerRadioButton_new_group_exclusive_witness :
    Sample.freshGui.widgets[0]? = some Sample.freshBox ∧
    Sample.freshBox.formClass.isAbstractButton = true ∧
    (∀ data ∈ Sample.controller.m_radios, Sample.checkField.id ∉ data.ids) ∧
    ∃ c' g' grp,
      registerRadioButton Sample.controller Sample.freshGui (some 0) Sample.checkField
        = some (c', g') ∧
      c'.m_radios = Sample.controller.m_radios ++
        [⟨Sample.checkField.siblings ++ [Sample.checkField.id], Sample.freshGui.groups.length⟩] ∧
      g'.groups[Sample.freshGui.groups.length]? = some grp ∧ grp.buttons = [0] ∧
      (Sample.checkField.siblings = [] → grp.exclusive = false) ∧
      (Sample.checkField.siblings ≠ [] → grp.exclusive = QButtonGroup.ctor.exclusive) :=
  ⟨rfl, rfl, by decide,
   registerRadioButton_new_group_exclusive Sample.controller Sample.freshGui 0 Sample.freshBox
     Sample.checkField rfl rfl (by decide)⟩

end FormWidgetsController

end Okular

namespace Okular

namespace Document

/-- A push on a bounded history stack respects the bound. -/
theorem length_push_le (bound : Nat) (viewport : DocumentViewport)
    (stack : List DocumentViewport) : (ViewportManager.push bound viewport stack).length ≤ bound := by
  simp [ViewportManager.push, List.length_take]

/-- The stacks of the viewport manager respect the bound after `setViewport`,
`setPrevViewport` and `setNextViewport` when they did before: the states that the
three operations reach from a history with empty stacks all do. -/
theorem bounded_preserved (vm : ViewportManager) (viewport : DocumentViewport)
    (h : vm.bounded) :
    (setViewport vm viewport).bounded ∧ (setPrevViewport vm).bounded ∧
    (setNextViewport vm).bounded := by
  obtain ⟨hb, hf⟩ := h
  refine ⟨?_, ?_, ?_⟩
  · unfold setViewport
    split
    · exact ⟨hb, hf⟩
    · exact ⟨length_push_le _ _ _, hf⟩
  · unfold setPrevViewport
    split
    · exact ⟨hb, hf⟩
    · rename_i previous rest heq
      refine ⟨?_, length_push_le _ _ _⟩
      rw [heq] at hb
      exact Nat.le_of_succ_le (by simpa using hb)
  · unfold setNextViewport
    split
    · exact ⟨hb, hf⟩
    · rename_i next rest heq
      refine ⟨length_push_le _ _ _, ?_⟩
      rw [heq] at hf
      exact Nat.le_of_succ_le (by simpa using hf)

end Document

end Okular

/-! ## Theorems: the search ids and the find bar -/

namespace Okular

namespace FindBar

/-- No slot of the find bar changes the search id of its line edit. -/
theorem searchId_handle (bar : FindBar) (event : FindBar.Event) :
    (bar.handle event).m_search.searchId = bar.m_search.searchId := by
  cases event <;> rfl

/-- The search id of the line edit is the same after any sequence of events. -/
theorem searchId_foldl_handle (events : List FindBar.Event) (bar : FindBar) :
    (events.foldl handle bar).m_search.searchId = bar.m_search.searchId := by
  induction events generalizing bar with
  | nil => rfl
  | cons event rest ih => rw [List.foldl_cons, ih, searchId_handle]

/-- C21. The four predefined search ids `PART_SEARCH_ID`, `PAGEVIEW_SEARCH_ID`,
`SW_SEARCH_ID` and `PRESENTATION_SEARCH_ID` are pairwise distinct small integers (they
lie between 1 and 4), and `FindBar` binds its search to `PART_SEARCH_ID`: its
constructor sets that id on its line edit, whatever the line edit held, and no
sequence of clicks and toggles on the bar changes it. -/
theorem searchIds_distinct_and_findBar_id (lineEdit : SearchLineEdit)
    (events : List FindBar.Event) :
    PART_SEARCH_ID ≠ PAGEVIEW_SEARCH_ID ∧ PART_SEARCH_ID ≠ SW_SEARCH_ID ∧
    PART_SEARCH_ID ≠ PRESENTATION_SEARCH_ID ∧ PAGEVIEW_SEARCH_ID ≠ SW_SEARCH_ID ∧
    PAGEVIEW_SEARCH_ID ≠ PRESENTATION_SEARCH_ID ∧ SW_SEARCH_ID ≠ PRESENTATION_SEARCH_ID ∧
    searchIds.Nodup ∧
    (∀ id ∈ searchIds, 1 ≤ id ∧ id ≤ 4) ∧
    (ctor lineEdit).m_search.searchId = PART_SEARCH_ID ∧
    (events.foldl handle (ctor lineEdit)).m_search.searchId = PART_SEARCH_ID := by
  refine ⟨by decide, by decide, by decide, by decide, by decide, by decide, by decide,
    by decide, rfl, ?_⟩
  rw [searchId_foldl_handle]
  rfl

end FindBar

end Okular
